import Mathlib

/-!
Verification of `buildFLUXGraph` (InvokeAI front end, file
`buildFLUXGraph.ts`): a shallow embedding of the graph-construction
function for FLUX generation requests, together with theorems about its
precondition checks, mode dispatch, numeric policy, collector wiring,
metadata accumulation and post-processing.

JavaScript numbers are modelled as rationals (`ℚ`).  The floating-point
exponentiation operator `**` used once (for the optimized-denoising
rescale) is modelled as an abstract parameter `jsPow : ℚ → ℚ → ℚ`, so the
theorems about the denoising-start formula hold for every interpretation
of `**`.

The `Graph` container class and the per-feature sub-builders
(`addTextToImage`, `addControlNets`, ...) are imported by the source file
but are not part of the provided source; they are modelled from the spec
(see the doc comments below).  The sub-builders are abstract collaborator
functions collected in a `SubBuilders` record, so the theorems quantify
over their behaviour, constrained only by explicitly stated
well-behavedness hypotheses.
-/

namespace FluxGraph

/-- A scalar value as stored in node fields and metadata entries:
a JavaScript number (modelled as `ℚ`), string, or boolean. -/
inductive MetaV where
  | num (q : ℚ)
  | str (s : String)
  | boolV (b : Bool)
  deriving DecidableEq, Repr

/-- A graph node: `{ id, type, ...type-specific fields }`. -/
structure Node where
  id : String
  type : String
  fields : List (String × MetaV)
  deriving DecidableEq, Repr

/-- A directed edge `(sourceNodeId, sourcePort) → (destNodeId, destPort)`. -/
structure Edge where
  sourceId : String
  sourcePort : String
  destId : String
  destPort : String
  deriving DecidableEq, Repr

/-- Modelled from the spec: the `Graph` container class is not part of the
provided source.  Per the spec it is a mutable container of uniquely
identified nodes and directed edges between named ports, with an
accumulating key-value metadata side-record and one designated
metadata-receiving node. -/
structure Graph where
  id : String
  nodes : List Node
  edges : List Edge
  metadata : List (String × MetaV)
  metadataReceivingNodeId : Option String
  deriving DecidableEq, Repr

def Graph.new (i : String) : Graph := ⟨i, [], [], [], none⟩

/-- Modelled from the spec: `Graph.addNode` appends a node to the graph. -/
def Graph.addNode (g : Graph) (n : Node) : Graph :=
  { g with nodes := g.nodes ++ [n] }

/-- Modelled from the spec: `Graph.addEdge` appends a directed edge between
named ports. -/
def Graph.addEdge (g : Graph) (s sp d dp : String) : Graph :=
  { g with edges := g.edges ++ [⟨s, sp, d, dp⟩] }

/-- Modelled from the spec: `Graph.deleteNode` removes the node with the
given id, and (to keep the invariant that edges reference only existing
nodes) every edge incident to it. -/
def Graph.deleteNode (g : Graph) (i : String) : Graph :=
  { g with
    nodes := g.nodes.filter (fun n => n.id != i),
    edges := g.edges.filter (fun e => e.sourceId != i && e.destId != i) }

/-- Whether a metadata record holds a key. -/
def hasKey : List (String × MetaV) → String → Bool
  | [], _ => false
  | p :: rest, k => p.1 == k || hasKey rest k

/-- Look a key up in a metadata record (first matching entry). -/
def metaLookup : List (String × MetaV) → String → Option MetaV
  | [], _ => none
  | p :: rest, k => if p.1 = k then some p.2 else metaLookup rest k

/-- The value of the LAST entry holding a key, if any: the value a batch
of upserts would leave behind for that key. -/
def metaLookupLast : List (String × MetaV) → String → Option MetaV
  | [], _ => none
  | p :: rest, k =>
    match metaLookupLast rest k with
    | some v => some v
    | none => if p.1 = k then some p.2 else none

/-- Upsert a single key-value pair into an association list: override every
entry holding the key if present, otherwise append. -/
def upsertOne (m : List (String × MetaV)) (kv : String × MetaV) :
    List (String × MetaV) :=
  if hasKey m kv.1 then
    m.map (fun p => if p.1 = kv.1 then kv else p)
  else m ++ [kv]

/-- Merge a batch of key-value pairs into an association list, left to
right; later entries add new keys or override existing ones, never
removing a key. -/
def upsertMany (m new : List (String × MetaV)) : List (String × MetaV) :=
  new.foldl upsertOne m

/-- Modelled from the spec: `Graph.upsertMetadata` merges (not replaces)
a partial metadata record into the accumulated metadata. -/
def Graph.upsertMetadata (g : Graph) (new : List (String × MetaV)) : Graph :=
  { g with metadata := upsertMany g.metadata new }

/-- Modelled from the spec: `Graph.updateNode` applies whitelisted field
updates to the node with the given id. -/
def Graph.updateNode (g : Graph) (i : String) (new : List (String × MetaV)) :
    Graph :=
  { g with
    nodes := g.nodes.map (fun n =>
      if n.id == i then { n with fields := upsertMany n.fields new } else n) }

/-- Modelled from the spec: `Graph.setMetadataReceivingNode` designates the
given node as the metadata receiver. -/
def Graph.setMetadataReceivingNode (g : Graph) (n : Node) : Graph :=
  { g with metadataReceivingNodeId := some n.id }

/-- A node id is absent from a graph. -/
def NodeAbsent (g : Graph) (i : String) : Prop :=
  ∀ n ∈ g.nodes, n.id ≠ i

/-! ### Application state -/

/-- The selected main-model config (the fields the builder reads). -/
structure ModelConfig where
  key : String
  base : String
  variant : Option String
  deriving DecidableEq, Repr

/-- The slice of the params state destructured by the builder. -/
structure Params where
  guidance : ℚ
  seed : ℕ
  steps : ℕ
  fluxVAE : Option String
  t5EncoderModel : Option String
  clipEmbedModel : Option String
  img2imgStrength : ℚ
  optimizedDenoisingEnabled : Bool
  deriving DecidableEq, Repr

/-- The generation mode returned by `getGenerationMode` (not part of the
provided source; its result is modelled as a state field). -/
inductive GenerationMode where
  | txt2img
  | img2img
  | inpaint
  | outpaint
  deriving DecidableEq, Repr

/-- The system feature toggles the builder reads. -/
structure SystemState where
  shouldUseNSFWChecker : Bool
  shouldUseWatermarker : Bool
  deriving DecidableEq, Repr

/-- A width/height pair, as produced by `getSizes`. -/
structure Size where
  width : ℚ
  height : ℚ
  deriving DecidableEq, Repr

/-- The snapshot of application state the builder consumes.  Selector
results (`selectPresetModifiedPrompts`, `getSizes`, `selectCanvasMetadata`,
`selectCanvasOutputFields`, `getGenerationMode`) are modelled as fields,
since those selectors are not part of the provided source. -/
structure RootState where
  params : Params
  model : Option ModelConfig
  generationMode : GenerationMode
  system : SystemState
  positivePrompt : String
  originalSize : Size
  scaledSize : Size
  canvasMetadata : List (String × MetaV)
  canvasOutputFields : List (String × MetaV)
  deriving DecidableEq, Repr

/-! ### Collaborators -/

/-- Modelled from the spec: the delegated per-feature sub-builders are
interfaces consumed, not specified — each takes the graph (plus relevant
entities, abstracted away) and returns either a count of items wired or a
new current-output-node reference.  The three mode sub-builders for
image-to-image, inpaint and outpaint additionally receive the computed
`denoising_start` value. -/
structure SubBuilders where
  addFLUXLoRAs : Graph → Graph
  addFLUXFill : Graph → Graph × Node
  addTextToImage : Graph → Graph × Node
  addImageToImage : Graph → ℚ → Graph × Node
  addInpaint : Graph → ℚ → Graph × Node
  addOutpaint : Graph → ℚ → Graph × Node
  addControlNets : Graph → Graph × ℕ
  addControlLoRA : Graph → Graph
  addIPAdapters : Graph → Graph × ℕ
  addFLUXReduxes : Graph → Graph × ℕ
  addRegions : Graph → Graph × ℕ × ℕ
  addNSFWChecker : Graph → Node → Graph × Node
  addWatermarker : Graph → Node → Graph × Node

/-! ### Errors and result -/

/-- The two error kinds: `assert` precondition failures, and the
user-facing `UnsupportedGenerationModeError`. -/
inductive BuildError where
  | assertionFailed (msg : String)
  | unsupportedGenerationMode (msg : String)
  deriving DecidableEq, Repr

/-- A node id plus field name, for later patching. -/
structure FieldIdentifier where
  nodeId : String
  fieldName : String
  deriving DecidableEq, Repr

/-- The builder's successful result. -/
structure GraphBuilderReturn where
  g : Graph
  seedFieldIdentifier : FieldIdentifier
  positivePromptFieldIdentifier : FieldIdentifier
  deriving DecidableEq, Repr

/-! ### The builder

Node ids: `getPrefixedId` returns its prefix plus a globally unique random
suffix; the suffixes are modelled as fixed distinct strings.  In
particular the two collectors both created with the `ip_adapter_collector`
prefix receive distinct ids here, as they do (probabilistically) in the
source. -/

def modelLoaderNode (m : ModelConfig) (t5 clipE vae : String) : Node :=
  ⟨"flux_model_loader:0", "flux_model_loader",
    [("model", .str m.key), ("t5_encoder_model", .str t5),
     ("clip_embed_model", .str clipE), ("vae_model", .str vae)]⟩

def posCondNode (prompt : String) : Node :=
  ⟨"flux_text_encoder:0", "flux_text_encoder", [("prompt", .str prompt)]⟩

def posCondCollectNode : Node :=
  ⟨"pos_cond_collect:0", "collect", []⟩

def denoiseNode (guidance : ℚ) (steps seed : ℕ) (scaled : Size) : Node :=
  ⟨"flux_denoise:0", "flux_denoise",
    [("guidance", .num guidance), ("num_steps", .num steps),
     ("seed", .num seed), ("denoising_start", .num 0),
     ("denoising_end", .num 1), ("width", .num scaled.width),
     ("height", .num scaled.height)]⟩

def l2iNode : Node :=
  ⟨"flux_vae_decode:0", "flux_vae_decode", []⟩

def controlNetCollectorNode : Node :=
  ⟨"control_net_collector:0", "collect", []⟩

def ipAdapterCollectNode : Node :=
  ⟨"ip_adapter_collector:0", "collect", []⟩

def fluxReduxCollectNode : Node :=
  ⟨"ip_adapter_collector:1", "collect", []⟩

/-- The base subgraph: model loader → text conditioning →
conditioning-collector → denoiser → decoder, with the fixed port wiring of
the source. -/
def baseGraph (m : ModelConfig) (t5 clipE vae : String) (guidance : ℚ)
    (st : RootState) : Graph :=
  ((((((((((((((Graph.new "flux_graph:0").addNode
    (modelLoaderNode m t5 clipE vae)).addNode
    (posCondNode st.positivePrompt)).addNode
    posCondCollectNode).addNode
    (denoiseNode guidance st.params.steps st.params.seed st.scaledSize)).addNode
    l2iNode).addEdge
    "flux_model_loader:0" "transformer" "flux_denoise:0" "transformer").addEdge
    "flux_model_loader:0" "vae" "flux_denoise:0" "controlnet_vae").addEdge
    "flux_model_loader:0" "vae" "flux_vae_decode:0" "vae").addEdge
    "flux_model_loader:0" "clip" "flux_text_encoder:0" "clip").addEdge
    "flux_model_loader:0" "t5_encoder" "flux_text_encoder:0" "t5_encoder").addEdge
    "flux_model_loader:0" "max_seq_len" "flux_text_encoder:0" "t5_max_seq_len").addEdge
    "flux_text_encoder:0" "conditioning" "pos_cond_collect:0" "item").addEdge
    "pos_cond_collect:0" "collection" "flux_denoise:0" "positive_text_conditioning").addEdge
    "flux_denoise:0" "latents" "flux_vae_decode:0" "latents"

/-- The initial parameter-snapshot metadata contribution. -/
def initialMetadata (guidance : ℚ) (st : RootState) (m : ModelConfig)
    (t5 clipE vae : String) : List (String × MetaV) :=
  [("guidance", .num guidance),
   ("width", .num st.originalSize.width),
   ("height", .num st.originalSize.height),
   ("positive_prompt", .str st.positivePrompt),
   ("model", .str m.key),
   ("seed", .num st.params.seed),
   ("steps", .num st.params.steps),
   ("vae", .str vae),
   ("t5_encoder", .str t5),
   ("clip_embed_model", .str clipE)]

/-- The numeric policy for `denoising_start`: the power-rescaled complement
`1 - img2imgStrength ** 0.2` when optimized denoising is enabled, the
linear complement `1 - img2imgStrength` otherwise.  `jsPow` models the
JavaScript `**` operator. -/
def fluxDenoisingStart (jsPow : ℚ → ℚ → ℚ) (p : Params) : ℚ :=
  if p.optimizedDenoisingEnabled then 1 - jsPow p.img2imgStrength (0.2 : ℚ)
  else 1 - p.img2imgStrength

/-- The mode dispatch: FLUX Fill overrides normal mode dispatch, otherwise
exactly one of the four mode sub-builders runs and (except for fill)
contributes a `generation_mode` metadata key. -/
def modeDispatch (sb : SubBuilders) (jsPow : ℚ → ℚ → ℚ) (st : RootState)
    (m : ModelConfig) (manager : Bool) (g : Graph) :
    Except BuildError (Graph × Node) :=
  let d := fluxDenoisingStart jsPow st.params
  if m.variant = some "inpaint" then
    if manager then .ok (sb.addFLUXFill g)
    else .error (.assertionFailed "Need manager to do FLUX Fill")
  else
    match st.generationMode with
    | .txt2img =>
      let r := sb.addTextToImage g
      .ok (r.1.upsertMetadata [("generation_mode", .str "flux_txt2img")], r.2)
    | .img2img =>
      if manager then
        let r := sb.addImageToImage g d
        .ok (r.1.upsertMetadata [("generation_mode", .str "flux_img2img")], r.2)
      else .error (.assertionFailed "Need manager to do img2img")
    | .inpaint =>
      if manager then
        let r := sb.addInpaint g d
        .ok (r.1.upsertMetadata [("generation_mode", .str "flux_inpaint")], r.2)
      else .error (.assertionFailed "Need manager to do inpaint")
    | .outpaint =>
      if manager then
        let r := sb.addOutpaint g d
        .ok (r.1.upsertMetadata [("generation_mode", .str "flux_outpaint")], r.2)
      else .error (.assertionFailed "Need manager to do outpaint")

/-- Lines 244-327 of the source: the control-net collector (manager only),
control LoRA, IP-adapter collector, FLUX-redux collector and regions, with
each collector either wired into the denoise node (positive count) or
deleted (zero count). -/
def wireAdapters (sb : SubBuilders) (manager : Bool) (g0 : Graph) : Graph :=
  let g1 :=
    if manager then
      let ga := g0.addNode controlNetCollectorNode
      let rc := sb.addControlNets ga
      let gb :=
        if 0 < rc.2 then
          rc.1.addEdge "control_net_collector:0" "collection" "flux_denoise:0" "control"
        else rc.1.deleteNode "control_net_collector:0"
      sb.addControlLoRA gb
    else g0
  let g2 := g1.addNode ipAdapterCollectNode
  let ri := sb.addIPAdapters g2
  let g3 := ri.1.addNode fluxReduxCollectNode
  let rr := sb.addFLUXReduxes g3
  let regions := if manager then sb.addRegions rr.1 else (rr.1, 0, 0)
  let totalIPAdaptersAdded := ri.2 + regions.2.1
  let totalReduxesAdded := rr.2 + regions.2.2
  let g4 :=
    if 0 < totalIPAdaptersAdded then
      regions.1.addEdge "ip_adapter_collector:0" "collection" "flux_denoise:0" "ip_adapter"
    else regions.1.deleteNode "ip_adapter_collector:0"
  if 0 < totalReduxesAdded then
    g4.addEdge "ip_adapter_collector:1" "collection" "flux_denoise:0" "redux_conditioning"
  else g4.deleteNode "ip_adapter_collector:1"

/-- Lines 331-337: the optional safety-filter and watermark sub-builders,
safety filter first, each rewriting the current output node. -/
def postProcess (sb : SubBuilders) (st : RootState) (g : Graph) (out : Node) :
    Graph × Node :=
  let r1 := if st.system.shouldUseNSFWChecker then sb.addNSFWChecker g out else (g, out)
  if st.system.shouldUseWatermarker then sb.addWatermarker r1.1 r1.2 else r1

/-- The guidance value actually used: the fixed constant `30` for the FLUX
Fill variant, the user-supplied value otherwise. -/
def guidanceOf (m : ModelConfig) (st : RootState) : ℚ :=
  if m.variant = some "inpaint" then 30 else st.params.guidance

/-- The graph handed to the mode dispatch: base subgraph, LoRA sub-builder,
initial parameter-snapshot metadata. -/
def g2Of (sb : SubBuilders) (st : RootState) (m : ModelConfig)
    (t5 clipE vae : String) : Graph :=
  (sb.addFLUXLoRAs (baseGraph m t5 clipE vae (guidanceOf m st) st)).upsertMetadata
    (initialMetadata (guidanceOf m st) st m t5 clipE vae)

/-- The build steps after the mode dispatch succeeded with graph `r.1` and
output node `r.2`: collector wiring, post-processing, canvas metadata
merge, output-field overrides and metadata-receiver designation. -/
def finalOf (sb : SubBuilders) (st : RootState) (manager : Bool)
    (r : Graph × Node) : GraphBuilderReturn :=
  let g4 := wireAdapters sb manager r.1
  let pp := postProcess sb st g4 r.2
  let g6 := ((pp.1.upsertMetadata st.canvasMetadata).updateNode
    pp.2.id st.canvasOutputFields).setMetadataReceivingNode pp.2
  ⟨g6, ⟨"flux_denoise:0", "seed"⟩, ⟨"flux_text_encoder:0", "prompt"⟩⟩

/-- The build steps after the model-component assertions have passed. -/
def buildAfterChecks (sb : SubBuilders) (jsPow : ℚ → ℚ → ℚ) (st : RootState)
    (m : ModelConfig) (t5 clipE vae : String) (manager : Bool) :
    Except BuildError GraphBuilderReturn :=
  if m.variant = some "inpaint" ∧
      (st.generationMode = .txt2img ∨ st.generationMode = .img2img) then
    .error (.unsupportedGenerationMode "toast.fluxFillIncompatibleWithT2IAndI2I")
  else
    match modeDispatch sb jsPow st m manager (g2Of sb st m t5 clipE vae) with
    | .error e => .error e
    | .ok r => .ok (finalOf sb st manager r)

/-- The embedding of `buildFLUXGraph`: validates required model
sub-components, rejects the incompatible FLUX-Fill mode combinations,
builds the base subgraph, dispatches exactly one mode sub-builder, wires
the optional collectors, applies post-processing, merges metadata and
designates the metadata-receiving node. -/
def buildFLUXGraph (sb : SubBuilders) (jsPow : ℚ → ℚ → ℚ) (st : RootState)
    (manager : Bool) : Except BuildError GraphBuilderReturn :=
  match st.model with
  | none => .error (.assertionFailed "No model found in state")
  | some m =>
    if m.base = "flux" then
      match st.params.t5EncoderModel with
      | none => .error (.assertionFailed "No T5 Encoder model found in state")
      | some t5 =>
        match st.params.clipEmbedModel with
        | none => .error (.assertionFailed "No CLIP Embed model found in state")
        | some clipE =>
          match st.params.fluxVAE with
          | none => .error (.assertionFailed "No FLUX VAE model found in state")
          | some vae => buildAfterChecks sb jsPow st m t5 clipE vae manager
    else .error (.assertionFailed "Model is not a FLUX model")

/-! ### Concrete instantiations (for witnesses and observations) -/

/-- A trivial interpretation of the JavaScript `**` operator. -/
def jsPow0 : ℚ → ℚ → ℚ := fun _ _ => 0

/-- The inert collaborator bundle: every sub-builder leaves the graph
unchanged, wires zero items and returns the decoder as output node. -/
def sbId : SubBuilders where
  addFLUXLoRAs := fun g => g
  addFLUXFill := fun g => (g, l2iNode)
  addTextToImage := fun g => (g, l2iNode)
  addImageToImage := fun g _ => (g, l2iNode)
  addInpaint := fun g _ => (g, l2iNode)
  addOutpaint := fun g _ => (g, l2iNode)
  addControlNets := fun g => (g, 0)
  addControlLoRA := fun g => g
  addIPAdapters := fun g => (g, 0)
  addFLUXReduxes := fun g => (g, 0)
  addRegions := fun g => (g, 0, 0)
  addNSFWChecker := fun g n => (g, n)
  addWatermarker := fun g n => (g, n)

/-- The collaborator bundle that wires one item into each collector. -/
def sbOne : SubBuilders :=
  { sbId with
    addControlNets := fun g => (g, 1)
    addIPAdapters := fun g => (g, 1)
    addFLUXReduxes := fun g => (g, 1) }

/-- A node recording the `denoising_start` value a mode sub-builder
received. -/
def probeNode (d : ℚ) : Node :=
  ⟨"denoising_start_probe", "probe", [("denoising_start", .num d)]⟩

/-- The observing collaborator bundle: the three strength-consuming mode
sub-builders record the `denoising_start` argument they receive in a probe
node; everything else is inert. -/
def sbProbe : SubBuilders :=
  { sbId with
    addImageToImage := fun g d => (g.addNode (probeNode d), l2iNode)
    addInpaint := fun g d => (g.addNode (probeNode d), l2iNode)
    addOutpaint := fun g d => (g.addNode (probeNode d), l2iNode) }

def markNode (s : String) : Node := ⟨s, "marker", []⟩

def outFillNode : Node := ⟨"out_fill", "canvas_out", []⟩
def outTxt2imgNode : Node := ⟨"out_txt2img", "canvas_out", []⟩
def outImg2imgNode : Node := ⟨"out_img2img", "canvas_out", []⟩
def outInpaintNode : Node := ⟨"out_inpaint", "canvas_out", []⟩
def outOutpaintNode : Node := ⟨"out_outpaint", "canvas_out", []⟩
def nsfwNode : Node := ⟨"nsfw_checker:0", "img_nsfw", []⟩
def watermarkNode : Node := ⟨"watermarker:0", "img_watermark", []⟩

/-- The marking collaborator bundle: each mode sub-builder leaves a marker
node recording that it ran and adds and returns its own distinct output
node; the safety-filter and watermark sub-builders add and return their
own node, rewiring the previous output into it. -/
def sbMark : SubBuilders where
  addFLUXLoRAs := fun g => g
  addFLUXFill := fun g =>
    ((g.addNode (markNode "ran_fill")).addNode outFillNode, outFillNode)
  addTextToImage := fun g =>
    ((g.addNode (markNode "ran_txt2img")).addNode outTxt2imgNode, outTxt2imgNode)
  addImageToImage := fun g _ =>
    ((g.addNode (markNode "ran_img2img")).addNode outImg2imgNode, outImg2imgNode)
  addInpaint := fun g _ =>
    ((g.addNode (markNode "ran_inpaint")).addNode outInpaintNode, outInpaintNode)
  addOutpaint := fun g _ =>
    ((g.addNode (markNode "ran_outpaint")).addNode outOutpaintNode, outOutpaintNode)
  addControlNets := fun g => (g, 0)
  addControlLoRA := fun g => g
  addIPAdapters := fun g => (g, 0)
  addFLUXReduxes := fun g => (g, 0)
  addRegions := fun g => (g, 0, 0)
  addNSFWChecker := fun g n =>
    ((g.addNode nsfwNode).addEdge n.id "image" "nsfw_checker:0" "image", nsfwNode)
  addWatermarker := fun g n =>
    ((g.addNode watermarkNode).addEdge n.id "image" "watermarker:0" "image", watermarkNode)

/-- A plain FLUX dev model (not the fill variant). -/
def devModel : ModelConfig := ⟨"flux-dev-key", "flux", none⟩

/-- The FLUX Fill model: variant is the string `inpaint`. -/
def fillModel : ModelConfig := ⟨"flux-fill-key", "flux", some "inpaint"⟩

/-- A parameter slice with all model sub-components present. -/
def fullParams : Params :=
  ⟨4, 123, 30, some "vae-key", some "t5-key", some "clip-key", 1/2, false⟩

/-- A baseline state: dev model, txt2img, toggles off, empty canvas
metadata and output fields. -/
def baseState : RootState :=
  ⟨fullParams, some devModel, .txt2img, ⟨false, false⟩, "a cat",
   ⟨512, 512⟩, ⟨512, 512⟩, [], []⟩

/-! ### Well-behavedness of collaborators

The delegated sub-builders are external code whose only specified
behaviour is to wire additional structure into the graph.  `TameF` captures
what the claims rely on: a sub-builder may add nodes, edges and markers,
but it keeps every existing edge and node, leaves the accumulated metadata
alone, and never introduces a node whose id is one of the three
builder-reserved collector ids (ids are generated with globally unique
suffixes, so a collaborator cannot collide with them). -/

/-- The collector node ids reserved by the builder itself. -/
def reservedIds : List String :=
  ["control_net_collector:0", "ip_adapter_collector:0", "ip_adapter_collector:1"]

/-- The edge wired from the control-net collector into the denoise node. -/
def cnEdge : Edge :=
  ⟨"control_net_collector:0", "collection", "flux_denoise:0", "control"⟩

/-- The edge wired from the IP-adapter collector into the denoise node. -/
def ipEdge : Edge :=
  ⟨"ip_adapter_collector:0", "collection", "flux_denoise:0", "ip_adapter"⟩

/-- The edge wired from the FLUX-redux collector into the denoise node. -/
def rdEdge : Edge :=
  ⟨"ip_adapter_collector:1", "collection", "flux_denoise:0", "redux_conditioning"⟩

/-- Graph `g'` keeps `g`'s edges and nodes, and keeps reserved ids absent. -/
def Preserves (g g' : Graph) : Prop :=
  (∀ e ∈ g.edges, e ∈ g'.edges) ∧
  (∀ n ∈ g.nodes, n ∈ g'.nodes) ∧
  (∀ i ∈ reservedIds, NodeAbsent g i → NodeAbsent g' i)

/-- A well-behaved graph transformation: preserves structure and leaves
metadata unchanged. -/
def TameF (f : Graph → Graph) : Prop :=
  (∀ g, Preserves g (f g)) ∧ (∀ g, (f g).metadata = g.metadata)

/-- A well-behaved collaborator bundle. -/
structure Tame (sb : SubBuilders) : Prop where
  loras : TameF sb.addFLUXLoRAs
  fill : TameF fun g => (sb.addFLUXFill g).1
  textToImage : TameF fun g => (sb.addTextToImage g).1
  imageToImage : ∀ d, TameF fun g => (sb.addImageToImage g d).1
  inpaintTame : ∀ d, TameF fun g => (sb.addInpaint g d).1
  outpaintTame : ∀ d, TameF fun g => (sb.addOutpaint g d).1
  controlNets : TameF fun g => (sb.addControlNets g).1
  controlLoRA : TameF sb.addControlLoRA
  ipAdapters : TameF fun g => (sb.addIPAdapters g).1
  reduxes : TameF fun g => (sb.addFLUXReduxes g).1
  regions : TameF fun g => (sb.addRegions g).1
  nsfw : ∀ n, TameF fun g => (sb.addNSFWChecker g n).1
  watermark : ∀ n, TameF fun g => (sb.addWatermarker g n).1
  fillOutId : ∀ g, (sb.addFLUXFill g).2.id ≠ "flux_denoise:0"
  textToImageOutId : ∀ g, (sb.addTextToImage g).2.id ≠ "flux_denoise:0"
  imageToImageOutId : ∀ g d, (sb.addImageToImage g d).2.id ≠ "flux_denoise:0"
  inpaintOutId : ∀ g d, (sb.addInpaint g d).2.id ≠ "flux_denoise:0"
  outpaintOutId : ∀ g d, (sb.addOutpaint g d).2.id ≠ "flux_denoise:0"
  nsfwOutId : ∀ g n, n.id ≠ "flux_denoise:0" → (sb.addNSFWChecker g n).2.id ≠ "flux_denoise:0"
  watermarkOutId : ∀ g n, n.id ≠ "flux_denoise:0" → (sb.addWatermarker g n).2.id ≠ "flux_denoise:0"

/-- The `generation_mode` metadata contribution of the branch the mode
dispatch takes: none for FLUX Fill, the mode-specific key otherwise. -/
def modeMetaOf (st : RootState) (m : ModelConfig) : List (String × MetaV) :=
  if m.variant = some "inpaint" then []
  else
    match st.generationMode with
    | .txt2img => [("generation_mode", .str "flux_txt2img")]
    | .img2img => [("generation_mode", .str "flux_img2img")]
    | .inpaint => [("generation_mode", .str "flux_inpaint")]
    | .outpaint => [("generation_mode", .str "flux_outpaint")]

/-- The `generation_mode` metadata value for a generation mode. -/
def modeStr : GenerationMode → String
  | .txt2img => "flux_txt2img"
  | .img2img => "flux_img2img"
  | .inpaint => "flux_inpaint"
  | .outpaint => "flux_outpaint"

/-- The output node `sbMark`'s mode sub-builders return for a given
mode/model combination. -/
def modeOutNodeOf (st : RootState) (m : ModelConfig) : Node :=
  if m.variant = some "inpaint" then outFillNode
  else
    match st.generationMode with
    | .txt2img => outTxt2imgNode
    | .img2img => outImg2imgNode
    | .inpaint => outInpaintNode
    | .outpaint => outOutpaintNode

/-- Replace the system feature toggles of a state. -/
def withSystem (st : RootState) (b1 b2 : Bool) : RootState :=
  { st with system := ⟨b1, b2⟩ }

/-- The marker id `sbMark`'s mode sub-builders leave for a given
mode/model combination. -/
def modeMarkOf (st : RootState) (m : ModelConfig) : String :=
  if m.variant = some "inpaint" then "ran_fill"
  else
    match st.generationMode with
    | .txt2img => "ran_txt2img"
    | .img2img => "ran_img2img"
    | .inpaint => "ran_inpaint"
    | .outpaint => "ran_outpaint"

/-! ### Projection lemmas for the graph operations -/

@[simp] theorem addNode_nodes (g : Graph) (n : Node) :
    (g.addNode n).nodes = g.nodes ++ [n] := rfl

@[simp] theorem addNode_edges (g : Graph) (n : Node) :
    (g.addNode n).edges = g.edges := rfl

@[simp] theorem addNode_metadata (g : Graph) (n : Node) :
    (g.addNode n).metadata = g.metadata := rfl

@[simp] theorem addEdge_nodes (g : Graph) (a b c d : String) :
    (g.addEdge a b c d).nodes = g.nodes := rfl

@[simp] theorem addEdge_edges (g : Graph) (a b c d : String) :
    (g.addEdge a b c d).edges = g.edges ++ [⟨a, b, c, d⟩] := rfl

@[simp] theorem addEdge_metadata (g : Graph) (a b c d : String) :
    (g.addEdge a b c d).metadata = g.metadata := rfl

@[simp] theorem deleteNode_nodes (g : Graph) (i : String) :
    (g.deleteNode i).nodes = g.nodes.filter (fun n => n.id != i) := rfl

@[simp] theorem deleteNode_edges (g : Graph) (i : String) :
    (g.deleteNode i).edges =
      g.edges.filter (fun e => e.sourceId != i && e.destId != i) := rfl

@[simp] theorem deleteNode_metadata (g : Graph) (i : String) :
    (g.deleteNode i).metadata = g.metadata := rfl

@[simp] theorem upsertMetadata_nodes (g : Graph) (x : List (String × MetaV)) :
    (g.upsertMetadata x).nodes = g.nodes := rfl

@[simp] theorem upsertMetadata_edges (g : Graph) (x : List (String × MetaV)) :
    (g.upsertMetadata x).edges = g.edges := rfl

@[simp] theorem upsertMetadata_metadata (g : Graph) (x : List (String × MetaV)) :
    (g.upsertMetadata x).metadata = upsertMany g.metadata x := rfl

@[simp] theorem updateNode_nodes (g : Graph) (i : String) (fs : List (String × MetaV)) :
    (g.updateNode i fs).nodes = g.nodes.map (fun n =>
      if n.id == i then { n with fields := upsertMany n.fields fs } else n) := rfl

@[simp] theorem updateNode_edges (g : Graph) (i : String) (fs : List (String × MetaV)) :
    (g.updateNode i fs).edges = g.edges := rfl

@[simp] theorem updateNode_metadata (g : Graph) (i : String) (fs : List (String × MetaV)) :
    (g.updateNode i fs).metadata = g.metadata := rfl

@[simp] theorem setReceiving_nodes (g : Graph) (n : Node) :
    (g.setMetadataReceivingNode n).nodes = g.nodes := rfl

@[simp] theorem setReceiving_edges (g : Graph) (n : Node) :
    (g.setMetadataReceivingNode n).edges = g.edges := rfl

@[simp] theorem setReceiving_metadata (g : Graph) (n : Node) :
    (g.setMetadataReceivingNode n).metadata = g.metadata := rfl

@[simp] theorem setReceiving_receiver (g : Graph) (n : Node) :
    (g.setMetadataReceivingNode n).metadataReceivingNodeId = some n.id := rfl

/-! ### Absence and membership lemmas -/

theorem NodeAbsent.addNode {g : Graph} {i : String} (h : NodeAbsent g i)
    {n : Node} (hn : n.id ≠ i) : NodeAbsent (g.addNode n) i := by
  intro x hx
  rcases (by simpa using hx : x ∈ g.nodes ∨ x = n) with hx' | rfl
  · exact h x hx'
  · exact hn

theorem NodeAbsent.addEdge {g : Graph} {i : String} (h : NodeAbsent g i)
    (a b c d : String) : NodeAbsent (g.addEdge a b c d) i := by
  intro x hx
  exact h x (by simpa using hx)

theorem nodeAbsent_deleteNode_self (g : Graph) (i : String) :
    NodeAbsent (g.deleteNode i) i := by
  intro x hx
  exact (by simpa using hx : x ∈ g.nodes ∧ ¬x.id = i).2

theorem NodeAbsent.deleteNode {g : Graph} {i : String} (h : NodeAbsent g i)
    (j : String) : NodeAbsent (g.deleteNode j) i := by
  intro x hx
  exact h x (by simpa using hx : x ∈ g.nodes ∧ ¬x.id = j).1

theorem NodeAbsent.updateNode {g : Graph} {i : String} (h : NodeAbsent g i)
    (j : String) (fs : List (String × MetaV)) :
    NodeAbsent (g.updateNode j fs) i := by
  intro x hx
  rcases List.mem_map.mp (by simpa using hx) with ⟨n, hn, rfl⟩
  by_cases hj : n.id = j
  · simpa [hj] using h n hn
  · simpa [hj] using h n hn

theorem NodeAbsent.upsertMetadata {g : Graph} {i : String} (h : NodeAbsent g i)
    (x : List (String × MetaV)) : NodeAbsent (g.upsertMetadata x) i := by
  intro n hn
  exact h n (by simpa using hn)

theorem NodeAbsent.setReceiving {g : Graph} {i : String} (h : NodeAbsent g i)
    (n : Node) : NodeAbsent (g.setMetadataReceivingNode n) i := by
  intro x hx
  exact h x (by simpa using hx)

theorem mem_addNode_self (g : Graph) (n : Node) : n ∈ (g.addNode n).nodes := by
  simp

theorem mem_addNode {g : Graph} {x : Node} (h : x ∈ g.nodes) (n : Node) :
    x ∈ (g.addNode n).nodes := by
  simp [h]

theorem mem_deleteNode {g : Graph} {x : Node} (h : x ∈ g.nodes) {i : String}
    (hx : x.id ≠ i) : x ∈ (g.deleteNode i).nodes := by
  simp [List.mem_filter, bne_iff_ne]
  exact ⟨h, hx⟩

theorem mem_updateNode {g : Graph} {x : Node} (h : x ∈ g.nodes) {i : String}
    (hx : x.id ≠ i) (fs : List (String × MetaV)) :
    x ∈ (g.updateNode i fs).nodes := by
  simp only [updateNode_nodes, List.mem_map]
  exact ⟨x, h, by simp [hx]⟩

theorem edge_mem_addEdge_self (g : Graph) (a b c d : String) :
    (⟨a, b, c, d⟩ : Edge) ∈ (g.addEdge a b c d).edges := by
  simp

theorem edge_mem_addEdge {g : Graph} {e : Edge} (h : e ∈ g.edges)
    (a b c d : String) : e ∈ (g.addEdge a b c d).edges := by
  simp [h]

theorem edge_mem_deleteNode {g : Graph} {e : Edge} (h : e ∈ g.edges)
    {i : String} (h1 : e.sourceId ≠ i) (h2 : e.destId ≠ i) :
    e ∈ (g.deleteNode i).edges := by
  simp [List.mem_filter, bne_iff_ne]
  exact ⟨h, h1, h2⟩

/-! ### Upsert semantics -/

theorem metaLookup_eq_none_of_hasKey_false {m : List (String × MetaV)}
    {k : String} (h : hasKey m k = false) : metaLookup m k = none := by
  induction m with
  | nil => rfl
  | cons hd tl ih =>
    simp only [hasKey, Bool.or_eq_false_iff, beq_eq_false_iff_ne] at h
    simp [metaLookup, h.1, ih h.2]

theorem metaLookupLast_eq_none_of_hasKey_false {m : List (String × MetaV)}
    {k : String} (h : hasKey m k = false) : metaLookupLast m k = none := by
  induction m with
  | nil => rfl
  | cons hd tl ih =>
    simp only [hasKey, Bool.or_eq_false_iff, beq_eq_false_iff_ne] at h
    simp [metaLookupLast, h.1, ih h.2]

theorem metaLookup_map_ne {m : List (String × MetaV)} {k k' : String}
    (v : MetaV) (hk : k ≠ k') :
    metaLookup (m.map (fun p => if p.1 = k' then (k', v) else p)) k =
      metaLookup m k := by
  induction m with
  | nil => rfl
  | cons hd tl ih =>
    by_cases h : hd.1 = k'
    · have hne : ¬(k' = k) := fun e => hk e.symm
      have hne2 : ¬(hd.1 = k) := by rw [h]; exact hne
      simp only [List.map_cons, metaLookup, h, if_true, hne, if_false, hne2, ih]
    · by_cases h2 : hd.1 = k
      · simp [metaLookup, h, h2, hk]
      · simp only [List.map_cons, metaLookup, h, if_false, h2, ih]

theorem metaLookup_map_self {m : List (String × MetaV)} {k : String}
    (v : MetaV) (h : hasKey m k = true) :
    metaLookup (m.map (fun p => if p.1 = k then (k, v) else p)) k = some v := by
  induction m with
  | nil => exact absurd h (by simp [hasKey])
  | cons hd tl ih =>
    by_cases hh : hd.1 = k
    · simp only [List.map_cons, metaLookup, hh, if_true]
    · have ht : hasKey tl k = true := by
        simpa [hasKey, hh] using h
      simp only [List.map_cons, metaLookup, hh, if_false, ih ht]

theorem metaLookup_append_single (m : List (String × MetaV)) (k' : String)
    (v : MetaV) (k : String) :
    metaLookup (m ++ [(k', v)]) k =
      match metaLookup m k with
      | some w => some w
      | none => if k' = k then some v else none := by
  induction m with
  | nil => rfl
  | cons hd tl ih =>
    by_cases h : hd.1 = k
    · simp [metaLookup, h]
    · simp [metaLookup, h, ih]

theorem metaLookup_upsertOne (m : List (String × MetaV)) (k' : String)
    (v : MetaV) (k : String) :
    metaLookup (upsertOne m (k', v)) k =
      if k' = k then some v else metaLookup m k := by
  unfold upsertOne
  by_cases hany : hasKey m k'
  · simp only [hany, if_true]
    by_cases hk : k' = k
    · subst hk
      simp [metaLookup_map_self v hany]
    · simp [hk, metaLookup_map_ne v (fun e => hk e.symm)]
  · simp only [Bool.not_eq_true] at hany
    simp only [hany, Bool.false_eq_true, if_false]
    rw [metaLookup_append_single]
    by_cases hk : k' = k
    · subst hk
      simp [metaLookup_eq_none_of_hasKey_false hany]
    · cases hmk : metaLookup m k <;> simp [hk, hmk]

theorem metaLookup_upsertMany (m new : List (String × MetaV)) (k : String) :
    metaLookup (upsertMany m new) k =
      match metaLookupLast new k with
      | some v => some v
      | none => metaLookup m k := by
  induction new generalizing m with
  | nil => rfl
  | cons kv rest ih =>
    obtain ⟨k', v⟩ := kv
    rw [show upsertMany m ((k', v) :: rest) = upsertMany (upsertOne m (k', v)) rest from rfl,
      ih, metaLookup_upsertOne]
    cases hrest : metaLookupLast rest k with
    | some w => simp [metaLookupLast, hrest]
    | none =>
      by_cases hk : k' = k
      · simp [metaLookupLast, hrest, hk]
      · simp [metaLookupLast, hrest, hk]

theorem hasKey_append (m l : List (String × MetaV)) (k : String) :
    hasKey (m ++ l) k = (hasKey m k || hasKey l k) := by
  induction m with
  | nil => simp [hasKey]
  | cons hd tl ih => simp [hasKey, ih, Bool.or_assoc]

theorem hasKey_map_keys (m : List (String × MetaV)) (k k' : String) (v : MetaV) :
    hasKey (m.map (fun p => if p.1 = k' then (k', v) else p)) k = hasKey m k := by
  induction m with
  | nil => rfl
  | cons hd tl ih =>
    by_cases h : hd.1 = k'
    · simp only [List.map_cons, hasKey, h, if_true, ih]
    · simp only [List.map_cons, hasKey, h, if_false, ih]

theorem hasKey_upsertOne (m : List (String × MetaV)) (k' : String) (v : MetaV)
    (k : String) :
    hasKey (upsertOne m (k', v)) k = (hasKey m k || (k' == k)) := by
  unfold upsertOne
  by_cases hany : hasKey m k'
  · simp only [hany, if_true]
    rw [hasKey_map_keys]
    by_cases hk : k' = k
    · subst hk
      simp [hany]
    · simp [hk]
  · simp only [Bool.not_eq_true] at hany
    simp only [hany, Bool.false_eq_true, if_false]
    rw [hasKey_append]
    simp [hasKey]

theorem hasKey_upsertMany (m new : List (String × MetaV)) (k : String) :
    hasKey (upsertMany m new) k = (hasKey m k || hasKey new k) := by
  induction new generalizing m with
  | nil => simp [upsertMany, hasKey]
  | cons kv rest ih =>
    obtain ⟨k', v⟩ := kv
    rw [show upsertMany m ((k', v) :: rest) = upsertMany (upsertOne m (k', v)) rest from rfl,
      ih, hasKey_upsertOne]
    simp [hasKey, Bool.or_assoc]

/-! ### Preservation combinators -/

theorem Preserves.rfl (g : Graph) : Preserves g g :=
  ⟨fun _ he => he, fun _ hn => hn, fun _ _ h => h⟩

theorem Preserves.trans {g₁ g₂ g₃ : Graph} (h1 : Preserves g₁ g₂)
    (h2 : Preserves g₂ g₃) : Preserves g₁ g₃ :=
  ⟨fun e he => h2.1 e (h1.1 e he),
   fun n hn => h2.2.1 n (h1.2.1 n hn),
   fun i hi ha => h2.2.2 i hi (h1.2.2 i hi ha)⟩

theorem preserves_upsertMetadata (g : Graph) (x : List (String × MetaV)) :
    Preserves g (g.upsertMetadata x) :=
  ⟨fun e he => by simpa using he, fun n hn => by simpa using hn,
   fun _ _ ha => ha.upsertMetadata x⟩

/-- Metadata is unchanged by a wire-or-delete step. -/
theorem ite_wire_metadata (c : Prop) [Decidable c] (gx : Graph)
    (i a b d e : String) :
    (if c then gx.addEdge a b d e else gx.deleteNode i).metadata = gx.metadata := by
  split <;> simp

/-- An edge not incident to the deletable id survives a wire-or-delete
step. -/
theorem ite_wire_edge_mem (c : Prop) [Decidable c] {gx : Graph} {ed : Edge}
    (he : ed ∈ gx.edges) {i : String} (h1 : ed.sourceId ≠ i)
    (h2 : ed.destId ≠ i) (a b d e : String) :
    ed ∈ (if c then gx.addEdge a b d e else gx.deleteNode i).edges := by
  split
  · exact edge_mem_addEdge he a b d e
  · exact edge_mem_deleteNode he h1 h2

/-- Absence of a node id survives a wire-or-delete step. -/
theorem ite_wire_absent (c : Prop) [Decidable c] {gx : Graph} {j : String}
    (ha : NodeAbsent gx j) (i a b d e : String) :
    NodeAbsent (if c then gx.addEdge a b d e else gx.deleteNode i) j := by
  split
  · exact ha.addEdge a b d e
  · exact ha.deleteNode i

/-- A node whose id is not the deletable id survives a wire-or-delete
step. -/
theorem ite_wire_node_mem (c : Prop) [Decidable c] {gx : Graph} {n : Node}
    (hn : n ∈ gx.nodes) {i : String} (hi : n.id ≠ i) (a b d e : String) :
    n ∈ (if c then gx.addEdge a b d e else gx.deleteNode i).nodes := by
  split
  · simpa using hn
  · exact mem_deleteNode hn hi

/-! ### Stage lemmas: base graph and mode dispatch -/

theorem baseGraph_metadata (m : ModelConfig) (t5 clipE vae : String)
    (gu : ℚ) (st : RootState) :
    (baseGraph m t5 clipE vae gu st).metadata = [] := rfl

theorem baseGraph_nodes (m : ModelConfig) (t5 clipE vae : String)
    (gu : ℚ) (st : RootState) :
    (baseGraph m t5 clipE vae gu st).nodes =
      [modelLoaderNode m t5 clipE vae, posCondNode st.positivePrompt,
       posCondCollectNode, denoiseNode gu st.params.steps st.params.seed st.scaledSize,
       l2iNode] := rfl

theorem baseGraph_absent (m : ModelConfig) (t5 clipE vae : String)
    (gu : ℚ) (st : RootState) {i : String} (hi : i ∈ reservedIds) :
    NodeAbsent (baseGraph m t5 clipE vae gu st) i := by
  intro n hn
  rw [baseGraph_nodes] at hn
  simp only [List.mem_cons, List.not_mem_nil, or_false] at hn
  simp only [reservedIds, List.mem_cons, List.not_mem_nil, or_false] at hi
  rcases hi with rfl | rfl | rfl <;>
    rcases hn with rfl | rfl | rfl | rfl | rfl <;>
      simp [modelLoaderNode, posCondNode, posCondCollectNode, denoiseNode, l2iNode]

theorem g2Of_metadata {sb : SubBuilders} (tame : Tame sb) (st : RootState)
    (m : ModelConfig) (t5 clipE vae : String) :
    (g2Of sb st m t5 clipE vae).metadata =
      upsertMany [] (initialMetadata (guidanceOf m st) st m t5 clipE vae) := by
  unfold g2Of
  simp [tame.loras.2, baseGraph_metadata]

theorem g2Of_denoise_mem {sb : SubBuilders} (tame : Tame sb) (st : RootState)
    (m : ModelConfig) (t5 clipE vae : String) :
    denoiseNode (guidanceOf m st) st.params.steps st.params.seed st.scaledSize ∈
      (g2Of sb st m t5 clipE vae).nodes := by
  unfold g2Of
  have h0 : denoiseNode (guidanceOf m st) st.params.steps st.params.seed st.scaledSize ∈
      (baseGraph m t5 clipE vae (guidanceOf m st) st).nodes := by
    rw [baseGraph_nodes]; simp
  simpa using tame.loras.1 _ |>.2.1 _ h0

theorem g2Of_absent {sb : SubBuilders} (tame : Tame sb) (st : RootState)
    (m : ModelConfig) (t5 clipE vae : String) {i : String} (hi : i ∈ reservedIds) :
    NodeAbsent (g2Of sb st m t5 clipE vae) i := by
  unfold g2Of
  exact ((tame.loras.1 _).2.2 i hi (baseGraph_absent m t5 clipE vae _ st hi)).upsertMetadata _

theorem modeDispatch_ok_of_manager (sb : SubBuilders) (jsPow : ℚ → ℚ → ℚ)
    (st : RootState) (m : ModelConfig) (g : Graph) :
    ∃ r, modeDispatch sb jsPow st m true g = .ok r := by
  unfold modeDispatch
  by_cases hv : m.variant = some "inpaint"
  · simp [hv]
  · cases st.generationMode <;> simp [hv]

theorem modeDispatch_error_msgs {sb : SubBuilders} {jsPow : ℚ → ℚ → ℚ}
    {st : RootState} {m : ModelConfig} {manager : Bool} {g : Graph}
    {e : BuildError} (h : modeDispatch sb jsPow st m manager g = .error e) :
    e = .assertionFailed "Need manager to do FLUX Fill" ∨
    e = .assertionFailed "Need manager to do img2img" ∨
    e = .assertionFailed "Need manager to do inpaint" ∨
    e = .assertionFailed "Need manager to do outpaint" := by
  unfold modeDispatch at h
  by_cases hv : m.variant = some "inpaint"
  · simp only [hv, if_true] at h
    by_cases hman : manager <;> simp [hman] at h
    exact Or.inl h.symm
  · simp only [hv, if_false] at h
    cases hmode : st.generationMode <;> rw [hmode] at h <;>
      by_cases hman : manager <;> simp [hman] at h
    · exact Or.inr (Or.inl h.symm)
    · exact Or.inr (Or.inr (Or.inl h.symm))
    · exact Or.inr (Or.inr (Or.inr h.symm))

theorem modeDispatch_spec {sb : SubBuilders} (tame : Tame sb)
    {jsPow : ℚ → ℚ → ℚ} {st : RootState} {m : ModelConfig} {g : Graph}
    {r : Graph × Node} (h : modeDispatch sb jsPow st m true g = .ok r) :
    Preserves g r.1 ∧
    r.1.metadata = upsertMany g.metadata (modeMetaOf st m) ∧
    r.2.id ≠ "flux_denoise:0" := by
  unfold modeDispatch at h
  by_cases hv : m.variant = some "inpaint"
  · simp only [hv, if_true] at h
    simp only [Except.ok.injEq] at h
    subst h
    refine ⟨tame.fill.1 g, ?_, tame.fillOutId g⟩
    simpa [modeMetaOf, hv, upsertMany] using tame.fill.2 g
  · simp only [hv, if_false] at h
    cases hmode : st.generationMode <;> rw [hmode] at h <;>
      simp only [if_true, Except.ok.injEq] at h <;> subst h
    · exact ⟨(tame.textToImage.1 g).trans (preserves_upsertMetadata _ _),
        by simpa [modeMetaOf, hv, hmode] using congrArg (upsertMany · _) (tame.textToImage.2 g),
        tame.textToImageOutId g⟩
    · exact ⟨((tame.imageToImage _).1 g).trans (preserves_upsertMetadata _ _),
        by simpa [modeMetaOf, hv, hmode] using congrArg (upsertMany · _) ((tame.imageToImage _).2 g),
        tame.imageToImageOutId g _⟩
    · exact ⟨((tame.inpaintTame _).1 g).trans (preserves_upsertMetadata _ _),
        by simpa [modeMetaOf, hv, hmode] using congrArg (upsertMany · _) ((tame.inpaintTame _).2 g),
        tame.inpaintOutId g _⟩
    · exact ⟨((tame.outpaintTame _).1 g).trans (preserves_upsertMetadata _ _),
        by simpa [modeMetaOf, hv, hmode] using congrArg (upsertMany · _) ((tame.outpaintTame _).2 g),
        tame.outpaintOutId g _⟩

/-! ### Stage lemmas: collector wiring -/

theorem wireAdapters_metadata {sb : SubBuilders} (tame : Tame sb)
    (manager : Bool) (g : Graph) :
    (wireAdapters sb manager g).metadata = g.metadata := by
  unfold wireAdapters
  by_cases hm : manager <;>
    simp [hm, ite_wire_metadata, tame.controlNets.2, tame.controlLoRA.2,
      tame.ipAdapters.2, tame.reduxes.2, tame.regions.2]

theorem wireAdapters_cn_edge {sb : SubBuilders} (tame : Tame sb) {ccn : ℕ}
    (hcn : ∀ g', (sb.addControlNets g').2 = ccn) (hpos : 0 < ccn) (g : Graph) :
    cnEdge ∈ (wireAdapters sb true g).edges := by
  unfold wireAdapters
  simp only [if_true, hcn, hpos]
  apply ite_wire_edge_mem
  · apply ite_wire_edge_mem
    · apply (tame.regions.1 _).1
      apply (tame.reduxes.1 _).1
      simp only [addNode_edges]
      apply (tame.ipAdapters.1 _).1
      simp only [addNode_edges]
      apply (tame.controlLoRA.1 _).1
      simp [cnEdge]
    · simp [cnEdge]
    · simp [cnEdge]
  · simp [cnEdge]
  · simp [cnEdge]

theorem wireAdapters_cn_absent {sb : SubBuilders} (tame : Tame sb) {ccn : ℕ}
    (hcn : ∀ g', (sb.addControlNets g').2 = ccn) (hzero : ccn = 0) (g : Graph) :
    NodeAbsent (wireAdapters sb true g) "control_net_collector:0" := by
  unfold wireAdapters
  simp only [if_true, hcn, hzero, Nat.lt_irrefl, if_false]
  apply ite_wire_absent
  apply ite_wire_absent
  apply (tame.regions.1 _).2.2 _ (by simp [reservedIds])
  apply (tame.reduxes.1 _).2.2 _ (by simp [reservedIds])
  apply NodeAbsent.addNode _ (by simp [fluxReduxCollectNode])
  apply (tame.ipAdapters.1 _).2.2 _ (by simp [reservedIds])
  apply NodeAbsent.addNode _ (by simp [ipAdapterCollectNode])
  apply (tame.controlLoRA.1 _).2.2 _ (by simp [reservedIds])
  exact nodeAbsent_deleteNode_self _ _

theorem wireAdapters_ip_edge {sb : SubBuilders}
    {cip rip rrd : ℕ} (hip : ∀ g', (sb.addIPAdapters g').2 = cip)
    (hreg : ∀ g', (sb.addRegions g').2 = (rip, rrd)) (hpos : 0 < cip + rip)
    (g : Graph) : ipEdge ∈ (wireAdapters sb true g).edges := by
  unfold wireAdapters
  simp only [if_true, hip, hreg, hpos]
  apply ite_wire_edge_mem
  · simp [ipEdge]
  · simp [ipEdge]
  · simp [ipEdge]

theorem wireAdapters_ip_absent {sb : SubBuilders}
    {cip rip rrd : ℕ} (hip : ∀ g', (sb.addIPAdapters g').2 = cip)
    (hreg : ∀ g', (sb.addRegions g').2 = (rip, rrd)) (hzero : cip + rip = 0)
    (g : Graph) : NodeAbsent (wireAdapters sb true g) "ip_adapter_collector:0" := by
  unfold wireAdapters
  simp only [if_true, hip, hreg, hzero, Nat.lt_irrefl, if_false]
  apply ite_wire_absent
  exact nodeAbsent_deleteNode_self _ _

theorem wireAdapters_rd_edge {sb : SubBuilders}
    {crd rip rrd : ℕ} (hrd : ∀ g', (sb.addFLUXReduxes g').2 = crd)
    (hreg : ∀ g', (sb.addRegions g').2 = (rip, rrd)) (hpos : 0 < crd + rrd)
    (g : Graph) : rdEdge ∈ (wireAdapters sb true g).edges := by
  unfold wireAdapters
  simp only [if_true, hrd, hreg, hpos]
  simp [rdEdge]

theorem wireAdapters_rd_absent {sb : SubBuilders}
    {crd rip rrd : ℕ} (hrd : ∀ g', (sb.addFLUXReduxes g').2 = crd)
    (hreg : ∀ g', (sb.addRegions g').2 = (rip, rrd)) (hzero : crd + rrd = 0)
    (g : Graph) : NodeAbsent (wireAdapters sb true g) "ip_adapter_collector:1" := by
  unfold wireAdapters
  simp only [if_true, hrd, hreg, hzero, Nat.lt_irrefl, if_false]
  exact nodeAbsent_deleteNode_self _ _

/-- A node of the dispatch-output graph survives the collector wiring as
long as its id is not one of the reserved collector ids. -/
theorem wireAdapters_node_mem {sb : SubBuilders} (tame : Tame sb)
    (manager : Bool) {g : Graph} {n : Node} (hn : n ∈ g.nodes)
    (hres : n.id ∉ reservedIds) : n ∈ (wireAdapters sb manager g).nodes := by
  have h1 : n.id ≠ "control_net_collector:0" := by
    intro h; exact hres (by simp [reservedIds, h])
  have h2 : n.id ≠ "ip_adapter_collector:0" := by
    intro h; exact hres (by simp [reservedIds, h])
  have h3 : n.id ≠ "ip_adapter_collector:1" := by
    intro h; exact hres (by simp [reservedIds, h])
  unfold wireAdapters
  by_cases hm : manager <;> simp only [hm, if_true, if_false]
  · apply ite_wire_node_mem _ _ h3
    apply ite_wire_node_mem _ _ h2
    apply (tame.regions.1 _).2.1
    apply (tame.reduxes.1 _).2.1
    apply mem_addNode _ _
    apply (tame.ipAdapters.1 _).2.1
    apply mem_addNode _ _
    apply (tame.controlLoRA.1 _).2.1
    apply ite_wire_node_mem _ _ h1
    apply (tame.controlNets.1 _).2.1
    exact mem_addNode hn _
  · apply ite_wire_node_mem _ _ h3
    apply ite_wire_node_mem _ _ h2
    apply (tame.reduxes.1 _).2.1
    apply mem_addNode _ _
    apply (tame.ipAdapters.1 _).2.1
    apply mem_addNode _ _
    exact hn

/-- An edge of the dispatch-output graph survives the collector wiring as
long as its endpoints are not reserved collector ids. -/
theorem wireAdapters_edge_mem {sb : SubBuilders} (tame : Tame sb)
    (manager : Bool) {g : Graph} {e : Edge} (he : e ∈ g.edges)
    (hsrc : e.sourceId ∉ reservedIds) (hdst : e.destId ∉ reservedIds) :
    e ∈ (wireAdapters sb manager g).edges := by
  have s1 : e.sourceId ≠ "control_net_collector:0" := by
    intro h; exact hsrc (by simp [reservedIds, h])
  have s2 : e.sourceId ≠ "ip_adapter_collector:0" := by
    intro h; exact hsrc (by simp [reservedIds, h])
  have s3 : e.sourceId ≠ "ip_adapter_collector:1" := by
    intro h; exact hsrc (by simp [reservedIds, h])
  have d1 : e.destId ≠ "control_net_collector:0" := by
    intro h; exact hdst (by simp [reservedIds, h])
  have d2 : e.destId ≠ "ip_adapter_collector:0" := by
    intro h; exact hdst (by simp [reservedIds, h])
  have d3 : e.destId ≠ "ip_adapter_collector:1" := by
    intro h; exact hdst (by simp [reservedIds, h])
  unfold wireAdapters
  by_cases hm : manager <;> simp only [hm, if_true, if_false]
  · apply ite_wire_edge_mem _ _ s3 d3
    apply ite_wire_edge_mem _ _ s2 d2
    apply (tame.regions.1 _).1
    apply (tame.reduxes.1 _).1
    simp only [addNode_edges]
    apply (tame.ipAdapters.1 _).1
    simp only [addNode_edges]
    apply (tame.controlLoRA.1 _).1
    apply ite_wire_edge_mem _ _ s1 d1
    apply (tame.controlNets.1 _).1
    simpa using he
  · apply ite_wire_edge_mem _ _ s3 d3
    apply ite_wire_edge_mem _ _ s2 d2
    apply (tame.reduxes.1 _).1
    simp only [addNode_edges]
    apply (tame.ipAdapters.1 _).1
    simp only [addNode_edges]
    exact he

/-! ### Stage lemmas: post-processing and finalization -/

theorem postProcess_metadata {sb : SubBuilders} (tame : Tame sb)
    (st : RootState) (g : Graph) (out : Node) :
    (postProcess sb st g out).1.metadata = g.metadata := by
  have hw : ∀ (n : Node) (gx : Graph),
      (sb.addWatermarker gx n).1.metadata = gx.metadata :=
    fun n gx => (tame.watermark n).2 gx
  have hnc : ∀ (n : Node) (gx : Graph),
      (sb.addNSFWChecker gx n).1.metadata = gx.metadata :=
    fun n gx => (tame.nsfw n).2 gx
  unfold postProcess
  by_cases h1 : st.system.shouldUseNSFWChecker <;>
    by_cases h2 : st.system.shouldUseWatermarker <;>
      simp [h1, h2, hw, hnc]

theorem postProcess_preserves {sb : SubBuilders} (tame : Tame sb)
    (st : RootState) (g : Graph) (out : Node) :
    Preserves g (postProcess sb st g out).1 := by
  unfold postProcess
  by_cases h1 : st.system.shouldUseNSFWChecker <;>
    by_cases h2 : st.system.shouldUseWatermarker <;>
      simp only [h1, h2, if_true, if_false]
  · exact ((tame.nsfw out).1 g).trans ((tame.watermark _).1 _)
  · exact (tame.nsfw out).1 g
  · exact (tame.watermark out).1 g
  · exact Preserves.rfl g

theorem postProcess_out_id {sb : SubBuilders} (tame : Tame sb)
    (st : RootState) (g : Graph) {out : Node}
    (h : out.id ≠ "flux_denoise:0") :
    (postProcess sb st g out).2.id ≠ "flux_denoise:0" := by
  unfold postProcess
  by_cases h1 : st.system.shouldUseNSFWChecker <;>
    by_cases h2 : st.system.shouldUseWatermarker <;>
      simp only [h1, h2, if_true, if_false]
  · exact tame.watermarkOutId _ _ (tame.nsfwOutId _ _ h)
  · exact tame.nsfwOutId _ _ h
  · exact tame.watermarkOutId _ _ h
  · exact h

theorem finalOf_metadata {sb : SubBuilders} (tame : Tame sb)
    (st : RootState) (manager : Bool) (r : Graph × Node) :
    (finalOf sb st manager r).g.metadata =
      upsertMany r.1.metadata st.canvasMetadata := by
  unfold finalOf
  simp only [setReceiving_metadata, updateNode_metadata, upsertMetadata_metadata]
  rw [postProcess_metadata tame, wireAdapters_metadata tame]

theorem finalOf_edge {sb : SubBuilders} (tame : Tame sb) (st : RootState)
    (manager : Bool) (r : Graph × Node) {e : Edge}
    (he : e ∈ (wireAdapters sb manager r.1).edges) :
    e ∈ (finalOf sb st manager r).g.edges := by
  unfold finalOf
  simp only [setReceiving_edges, updateNode_edges, upsertMetadata_edges]
  exact (postProcess_preserves tame st _ r.2).1 e he

theorem finalOf_absent {sb : SubBuilders} (tame : Tame sb) (st : RootState)
    (manager : Bool) (r : Graph × Node) {i : String} (hi : i ∈ reservedIds)
    (ha : NodeAbsent (wireAdapters sb manager r.1) i) :
    NodeAbsent (finalOf sb st manager r).g i := by
  unfold finalOf
  exact ((((postProcess_preserves tame st _ r.2).2.2 i hi ha).upsertMetadata
    _).updateNode _ _).setReceiving _

theorem finalOf_node_mem {sb : SubBuilders} (tame : Tame sb) (st : RootState)
    (manager : Bool) (r : Graph × Node) {n : Node}
    (hn : n ∈ (wireAdapters sb manager r.1).nodes)
    (hne : n.id ≠ (postProcess sb st (wireAdapters sb manager r.1) r.2).2.id) :
    n ∈ (finalOf sb st manager r).g.nodes := by
  unfold finalOf
  simp only [setReceiving_nodes]
  have h1 : n ∈ (postProcess sb st (wireAdapters sb manager r.1) r.2).1.nodes :=
    (postProcess_preserves tame st _ r.2).2.1 n hn
  have h2 : n ∈ ((postProcess sb st (wireAdapters sb manager r.1) r.2).1.upsertMetadata
      st.canvasMetadata).nodes := by simpa using h1
  exact mem_updateNode h2 hne _

theorem finalOf_receiver (sb : SubBuilders) (st : RootState) (manager : Bool)
    (r : Graph × Node) :
    (finalOf sb st manager r).g.metadataReceivingNodeId =
      some (postProcess sb st (wireAdapters sb manager r.1) r.2).2.id := rfl

/-! ### Build-level glue -/

theorem buildFLUXGraph_eq {sb : SubBuilders} {jsPow : ℚ → ℚ → ℚ}
    {st : RootState} {manager : Bool} {m : ModelConfig} {t5 clipE vae : String}
    (hm : st.model = some m) (hbase : m.base = "flux")
    (ht5 : st.params.t5EncoderModel = some t5)
    (hclip : st.params.clipEmbedModel = some clipE)
    (hvae : st.params.fluxVAE = some vae) :
    buildFLUXGraph sb jsPow st manager =
      buildAfterChecks sb jsPow st m t5 clipE vae manager := by
  simp [buildFLUXGraph, hm, hbase, ht5, hclip, hvae]

theorem buildAfterChecks_ok {sb : SubBuilders} {jsPow : ℚ → ℚ → ℚ}
    {st : RootState} {manager : Bool} {m : ModelConfig} {t5 clipE vae : String}
    (hcompat : ¬(m.variant = some "inpaint" ∧
      (st.generationMode = .txt2img ∨ st.generationMode = .img2img)))
    {r : Graph × Node}
    (hdisp : modeDispatch sb jsPow st m manager (g2Of sb st m t5 clipE vae) = .ok r) :
    buildAfterChecks sb jsPow st m t5 clipE vae manager =
      .ok (finalOf sb st manager r) := by
  simp [buildAfterChecks, hcompat, hdisp]

/-! ### Tame witnesses for the concrete collaborator bundles -/

theorem tameF_id : TameF (fun g => g) :=
  ⟨fun g => Preserves.rfl g, fun _ => rfl⟩

theorem tameF_addNode (n : Node) (hres : ∀ i ∈ reservedIds, n.id ≠ i) :
    TameF (fun g => g.addNode n) :=
  ⟨fun _ => ⟨fun e he => by simpa using he, fun x hx => mem_addNode hx n,
      fun i hi ha => ha.addNode (hres i hi)⟩,
   fun _ => rfl⟩

theorem tameF_addEdge (a b c d : String) : TameF (fun g => g.addEdge a b c d) :=
  ⟨fun _ => ⟨fun e he => edge_mem_addEdge he a b c d, fun x hx => by simpa using hx,
      fun _ _ ha => ha.addEdge a b c d⟩,
   fun _ => rfl⟩

theorem TameF.comp {f f' : Graph → Graph} (h1 : TameF f) (h2 : TameF f') :
    TameF (fun g => f' (f g)) :=
  ⟨fun g => (h1.1 g).trans (h2.1 (f g)),
   fun g => by rw [h2.2 (f g), h1.2 g]⟩

theorem tame_sbId : Tame sbId where
  loras := tameF_id
  fill := tameF_id
  textToImage := tameF_id
  imageToImage := fun _ => tameF_id
  inpaintTame := fun _ => tameF_id
  outpaintTame := fun _ => tameF_id
  controlNets := tameF_id
  controlLoRA := tameF_id
  ipAdapters := tameF_id
  reduxes := tameF_id
  regions := tameF_id
  nsfw := fun _ => tameF_id
  watermark := fun _ => tameF_id
  fillOutId := fun _ => by simp [sbId, l2iNode]
  textToImageOutId := fun _ => by simp [sbId, l2iNode]
  imageToImageOutId := fun _ _ => by simp [sbId, l2iNode]
  inpaintOutId := fun _ _ => by simp [sbId, l2iNode]
  outpaintOutId := fun _ _ => by simp [sbId, l2iNode]
  nsfwOutId := fun _ _ h => h
  watermarkOutId := fun _ _ h => h

theorem tame_sbOne : Tame sbOne where
  loras := tameF_id
  fill := tameF_id
  textToImage := tameF_id
  imageToImage := fun _ => tameF_id
  inpaintTame := fun _ => tameF_id
  outpaintTame := fun _ => tameF_id
  controlNets := tameF_id
  controlLoRA := tameF_id
  ipAdapters := tameF_id
  reduxes := tameF_id
  regions := tameF_id
  nsfw := fun _ => tameF_id
  watermark := fun _ => tameF_id
  fillOutId := fun _ => by simp [sbOne, sbId, l2iNode]
  textToImageOutId := fun _ => by simp [sbOne, sbId, l2iNode]
  imageToImageOutId := fun _ _ => by simp [sbOne, sbId, l2iNode]
  inpaintOutId := fun _ _ => by simp [sbOne, sbId, l2iNode]
  outpaintOutId := fun _ _ => by simp [sbOne, sbId, l2iNode]
  nsfwOutId := fun _ _ h => h
  watermarkOutId := fun _ _ h => h

theorem tame_sbProbe : Tame sbProbe where
  loras := tameF_id
  fill := tameF_id
  textToImage := tameF_id
  imageToImage := fun _ => tameF_addNode _ (by simp [probeNode, reservedIds])
  inpaintTame := fun _ => tameF_addNode _ (by simp [probeNode, reservedIds])
  outpaintTame := fun _ => tameF_addNode _ (by simp [probeNode, reservedIds])
  controlNets := tameF_id
  controlLoRA := tameF_id
  ipAdapters := tameF_id
  reduxes := tameF_id
  regions := tameF_id
  nsfw := fun _ => tameF_id
  watermark := fun _ => tameF_id
  fillOutId := fun _ => by simp [sbProbe, sbId, l2iNode]
  textToImageOutId := fun _ => by simp [sbProbe, sbId, l2iNode]
  imageToImageOutId := fun _ _ => by simp [sbProbe, l2iNode]
  inpaintOutId := fun _ _ => by simp [sbProbe, l2iNode]
  outpaintOutId := fun _ _ => by simp [sbProbe, l2iNode]
  nsfwOutId := fun _ _ h => h
  watermarkOutId := fun _ _ h => h

theorem tame_sbMark : Tame sbMark where
  loras := tameF_id
  fill := (tameF_addNode _ (by simp [markNode, reservedIds])).comp
    (tameF_addNode _ (by simp [outFillNode, reservedIds]))
  textToImage := (tameF_addNode _ (by simp [markNode, reservedIds])).comp
    (tameF_addNode _ (by simp [outTxt2imgNode, reservedIds]))
  imageToImage := fun _ => (tameF_addNode _ (by simp [markNode, reservedIds])).comp
    (tameF_addNode _ (by simp [outImg2imgNode, reservedIds]))
  inpaintTame := fun _ => (tameF_addNode _ (by simp [markNode, reservedIds])).comp
    (tameF_addNode _ (by simp [outInpaintNode, reservedIds]))
  outpaintTame := fun _ => (tameF_addNode _ (by simp [markNode, reservedIds])).comp
    (tameF_addNode _ (by simp [outOutpaintNode, reservedIds]))
  controlNets := tameF_id
  controlLoRA := tameF_id
  ipAdapters := tameF_id
  reduxes := tameF_id
  regions := tameF_id
  nsfw := fun n => (tameF_addNode _ (by simp [nsfwNode, reservedIds])).comp
    (tameF_addEdge n.id "image" "nsfw_checker:0" "image")
  watermark := fun n => (tameF_addNode _ (by simp [watermarkNode, reservedIds])).comp
    (tameF_addEdge n.id "image" "watermarker:0" "image")
  fillOutId := fun _ => by simp [sbMark, outFillNode]
  textToImageOutId := fun _ => by simp [sbMark, outTxt2imgNode]
  imageToImageOutId := fun _ _ => by simp [sbMark, outImg2imgNode]
  inpaintOutId := fun _ _ => by simp [sbMark, outInpaintNode]
  outpaintOutId := fun _ _ => by simp [sbMark, outOutpaintNode]
  nsfwOutId := fun _ _ _ => by simp [sbMark, nsfwNode]
  watermarkOutId := fun _ _ _ => by simp [sbMark, watermarkNode]

/-! ### Metadata computation helpers -/

theorem metaLookup_upsertMany_nil (new : List (String × MetaV)) (k : String) :
    metaLookup (upsertMany [] new) k = metaLookupLast new k := by
  rw [metaLookup_upsertMany]
  cases metaLookupLast new k <;> rfl

theorem modeMetaOf_fill (st : RootState) {m : ModelConfig}
    (hv : m.variant = some "inpaint") : modeMetaOf st m = [] := by
  simp [modeMetaOf, hv]

theorem modeMetaOf_nonfill (st : RootState) {m : ModelConfig}
    (hv : ¬m.variant = some "inpaint") :
    modeMetaOf st m = [("generation_mode", .str (modeStr st.generationMode))] := by
  unfold modeMetaOf
  rw [if_neg hv]
  cases st.generationMode <;> rfl

theorem modeMetaOf_no_guidance (st : RootState) (m : ModelConfig) :
    metaLookupLast (modeMetaOf st m) "guidance" = none := by
  by_cases hv : m.variant = some "inpaint"
  · rw [modeMetaOf_fill st hv]; rfl
  · rw [modeMetaOf_nonfill st hv]; simp [metaLookupLast]

theorem initialMetadata_guidance_last (gu : ℚ) (st : RootState)
    (m : ModelConfig) (t5 clipE vae : String) :
    metaLookupLast (initialMetadata gu st m t5 clipE vae) "guidance" =
      some (.num gu) := by
  simp [initialMetadata, metaLookupLast]

theorem initialMetadata_no_gm (gu : ℚ) (st : RootState) (m : ModelConfig)
    (t5 clipE vae : String) :
    hasKey (initialMetadata gu st m t5 clipE vae) "generation_mode" = false := by
  simp [initialMetadata, hasKey]

/-! ### Claim C1 -/

/-- C1: if the selected model is the FLUX Fill variant
(`model.variant = some "inpaint"`) and the generation mode is txt2img or
img2img, `buildFLUXGraph` raises the user-facing
`UnsupportedGenerationModeError` with the localized message and returns no
graph: the result is the error value, so no graph is exposed to the
caller. -/
theorem fluxFill_incompatible_modes_rejected (sb : SubBuilders)
    (jsPow : ℚ → ℚ → ℚ) (st : RootState) (manager : Bool) {m : ModelConfig}
    {t5 clipE vae : String} (hm : st.model = some m) (hbase : m.base = "flux")
    (hfill : m.variant = some "inpaint")
    (ht5 : st.params.t5EncoderModel = some t5)
    (hclip : st.params.clipEmbedModel = some clipE)
    (hvae : st.params.fluxVAE = some vae)
    (hmode : st.generationMode = .txt2img ∨ st.generationMode = .img2img) :
    buildFLUXGraph sb jsPow st manager =
      .error (.unsupportedGenerationMode "toast.fluxFillIncompatibleWithT2IAndI2I") := by
  rw [buildFLUXGraph_eq hm hbase ht5 hclip hvae]
  unfold buildAfterChecks
  rw [if_pos ⟨hfill, hmode⟩]

/-- Witness for C1: the FLUX Fill model with the txt2img mode is rejected
with the localized incompatibility error. -/
theorem fluxFill_incompatible_modes_rejected_witness :
    buildFLUXGraph sbId jsPow0 { baseState with model := some fillModel } false =
      .error (.unsupportedGenerationMode "toast.fluxFillIncompatibleWithT2IAndI2I") :=
  fluxFill_incompatible_modes_rejected sbId jsPow0 _ false rfl rfl rfl rfl rfl rfl
    (Or.inl rfl)

/-! ### Claim C5 -/

/-- C5: `buildFLUXGraph` fails fast with a descriptive precondition error
if any required model sub-component is missing (no main model, model not a
FLUX model, no T5 encoder, no CLIP embed, no FLUX VAE, checked in that
order); conversely, when all four are present and the base is `flux`, none
of these assertion branches is reachable: the result is never one of those
five assertion errors. -/
theorem flux_model_component_asserts (sb : SubBuilders) (jsPow : ℚ → ℚ → ℚ)
    (st : RootState) (manager : Bool) :
    (st.model = none →
      buildFLUXGraph sb jsPow st manager =
        .error (.assertionFailed "No model found in state")) ∧
    (∀ m, st.model = some m → m.base ≠ "flux" →
      buildFLUXGraph sb jsPow st manager =
        .error (.assertionFailed "Model is not a FLUX model")) ∧
    (∀ m, st.model = some m → m.base = "flux" → st.params.t5EncoderModel = none →
      buildFLUXGraph sb jsPow st manager =
        .error (.assertionFailed "No T5 Encoder model found in state")) ∧
    (∀ m t5, st.model = some m → m.base = "flux" →
      st.params.t5EncoderModel = some t5 → st.params.clipEmbedModel = none →
      buildFLUXGraph sb jsPow st manager =
        .error (.assertionFailed "No CLIP Embed model found in state")) ∧
    (∀ m t5 clipE, st.model = some m → m.base = "flux" →
      st.params.t5EncoderModel = some t5 → st.params.clipEmbedModel = some clipE →
      st.params.fluxVAE = none →
      buildFLUXGraph sb jsPow st manager =
        .error (.assertionFailed "No FLUX VAE model found in state")) ∧
    (∀ m t5 clipE vae, st.model = some m → m.base = "flux" →
      st.params.t5EncoderModel = some t5 → st.params.clipEmbedModel = some clipE →
      st.params.fluxVAE = some vae →
      ∀ msg, msg ∈ ["No model found in state", "Model is not a FLUX model",
        "No T5 Encoder model found in state", "No CLIP Embed model found in state",
        "No FLUX VAE model found in state"] →
      buildFLUXGraph sb jsPow st manager ≠ .error (.assertionFailed msg)) := by
  refine ⟨?_, ?_, ?_, ?_, ?_, ?_⟩
  · intro h
    simp [buildFLUXGraph, h]
  · intro m hm hb
    simp [buildFLUXGraph, hm, hb]
  · intro m hm hb h
    simp [buildFLUXGraph, hm, hb, h]
  · intro m t5 hm hb h1 h2
    simp [buildFLUXGraph, hm, hb, h1, h2]
  · intro m t5 clipE hm hb h1 h2 h3
    simp [buildFLUXGraph, hm, hb, h1, h2, h3]
  · intro m t5 clipE vae hm hb h1 h2 h3 msg hmsg heq
    rw [buildFLUXGraph_eq hm hb h1 h2 h3] at heq
    unfold buildAfterChecks at heq
    by_cases hc : m.variant = some "inpaint" ∧
        (st.generationMode = .txt2img ∨ st.generationMode = .img2img)
    · rw [if_pos hc] at heq
      simp at heq
    · rw [if_neg hc] at heq
      cases hdisp : modeDispatch sb jsPow st m manager (g2Of sb st m t5 clipE vae) with
      | error e =>
        simp only [hdisp, Except.error.injEq] at heq
        subst heq
        rcases modeDispatch_error_msgs hdisp with h | h | h | h <;>
          (simp only [BuildError.assertionFailed.injEq] at h; subst h; simp at hmsg)
      | ok r =>
        simp only [hdisp] at heq
        exact absurd heq (by simp)

/-- Witness for C5: each missing component at a concrete state yields its
assertion error, and with every component present the five assertion
errors are unreachable. -/
theorem flux_model_component_asserts_witness :
    buildFLUXGraph sbId jsPow0 { baseState with model := none } false =
      .error (.assertionFailed "No model found in state") ∧
    buildFLUXGraph sbId jsPow0 { baseState with model := some ⟨"sd-key", "sd-1", none⟩ } false =
      .error (.assertionFailed "Model is not a FLUX model") ∧
    buildFLUXGraph sbId jsPow0
        { baseState with params := { fullParams with t5EncoderModel := none } } false =
      .error (.assertionFailed "No T5 Encoder model found in state") ∧
    buildFLUXGraph sbId jsPow0
        { baseState with params := { fullParams with clipEmbedModel := none } } false =
      .error (.assertionFailed "No CLIP Embed model found in state") ∧
    buildFLUXGraph sbId jsPow0
        { baseState with params := { fullParams with fluxVAE := none } } false =
      .error (.assertionFailed "No FLUX VAE model found in state") ∧
    buildFLUXGraph sbId jsPow0 baseState false ≠
      .error (.assertionFailed "No model found in state") := by
  refine ⟨?_, ?_, ?_, ?_, ?_, ?_⟩
  · exact (flux_model_component_asserts sbId jsPow0 _ false).1 rfl
  · exact (flux_model_component_asserts sbId jsPow0 _ false).2.1 _ rfl (by simp)
  · exact (flux_model_component_asserts sbId jsPow0 _ false).2.2.1 _ rfl rfl rfl
  · exact (flux_model_component_asserts sbId jsPow0 _ false).2.2.2.1 _ _ rfl rfl rfl rfl
  · exact (flux_model_component_asserts sbId jsPow0 _ false).2.2.2.2.1 _ _ _ rfl rfl rfl rfl rfl
  · exact (flux_model_component_asserts sbId jsPow0 _ false).2.2.2.2.2 _ _ _ _ rfl rfl rfl rfl rfl
      _ (by simp)

/-! ### Claim C6 -/

/-- C6: with a null canvas manager, every image-conditioned path aborts
with its precondition assertion (img2img, inpaint, outpaint for a non-fill
model; the FLUX Fill path for the fill model on its compatible modes), and
no partial graph is exposed; the txt2img mode (non-fill model) completes
without a manager. -/
theorem flux_manager_precondition (sb : SubBuilders) (jsPow : ℚ → ℚ → ℚ)
    (st : RootState) {m : ModelConfig} {t5 clipE vae : String}
    (hm : st.model = some m) (hbase : m.base = "flux")
    (ht5 : st.params.t5EncoderModel = some t5)
    (hclip : st.params.clipEmbedModel = some clipE)
    (hvae : st.params.fluxVAE = some vae) :
    (¬m.variant = some "inpaint" → st.generationMode = .img2img →
      buildFLUXGraph sb jsPow st false =
        .error (.assertionFailed "Need manager to do img2img")) ∧
    (¬m.variant = some "inpaint" → st.generationMode = .inpaint →
      buildFLUXGraph sb jsPow st false =
        .error (.assertionFailed "Need manager to do inpaint")) ∧
    (¬m.variant = some "inpaint" → st.generationMode = .outpaint →
      buildFLUXGraph sb jsPow st false =
        .error (.assertionFailed "Need manager to do outpaint")) ∧
    (m.variant = some "inpaint" →
      (st.generationMode = .inpaint ∨ st.generationMode = .outpaint) →
      buildFLUXGraph sb jsPow st false =
        .error (.assertionFailed "Need manager to do FLUX Fill")) ∧
    (¬m.variant = some "inpaint" → st.generationMode = .txt2img →
      ∃ r, buildFLUXGraph sb jsPow st false = .ok r) := by
  refine ⟨?_, ?_, ?_, ?_, ?_⟩
  · intro hv hmode
    rw [buildFLUXGraph_eq hm hbase ht5 hclip hvae]
    unfold buildAfterChecks
    rw [if_neg (fun hc => hv hc.1)]
    have hdisp : modeDispatch sb jsPow st m false (g2Of sb st m t5 clipE vae) =
        .error (.assertionFailed "Need manager to do img2img") := by
      unfold modeDispatch
      rw [if_neg hv, hmode]
      rfl
    simp only [hdisp]
  · intro hv hmode
    rw [buildFLUXGraph_eq hm hbase ht5 hclip hvae]
    unfold buildAfterChecks
    rw [if_neg (fun hc => hv hc.1)]
    have hdisp : modeDispatch sb jsPow st m false (g2Of sb st m t5 clipE vae) =
        .error (.assertionFailed "Need manager to do inpaint") := by
      unfold modeDispatch
      rw [if_neg hv, hmode]
      rfl
    simp only [hdisp]
  · intro hv hmode
    rw [buildFLUXGraph_eq hm hbase ht5 hclip hvae]
    unfold buildAfterChecks
    rw [if_neg (fun hc => hv hc.1)]
    have hdisp : modeDispatch sb jsPow st m false (g2Of sb st m t5 clipE vae) =
        .error (.assertionFailed "Need manager to do outpaint") := by
      unfold modeDispatch
      rw [if_neg hv, hmode]
      rfl
    simp only [hdisp]
  · intro hv hmode
    rw [buildFLUXGraph_eq hm hbase ht5 hclip hvae]
    unfold buildAfterChecks
    rw [if_neg (fun hc => by
      rcases hmode with h | h <;> rw [h] at hc <;> rcases hc.2 with h2 | h2 <;> cases h2)]
    have hdisp : modeDispatch sb jsPow st m false (g2Of sb st m t5 clipE vae) =
        .error (.assertionFailed "Need manager to do FLUX Fill") := by
      unfold modeDispatch
      rw [if_pos hv]
      rfl
    simp only [hdisp]
  · intro hv hmode
    have hc : ¬(m.variant = some "inpaint" ∧
        (st.generationMode = .txt2img ∨ st.generationMode = .img2img)) :=
      fun hc => hv hc.1
    obtain ⟨r0, hdisp⟩ : ∃ r0,
        modeDispatch sb jsPow st m false (g2Of sb st m t5 clipE vae) = .ok r0 := by
      unfold modeDispatch
      rw [if_neg hv, hmode]
      exact ⟨_, rfl⟩
    exact ⟨finalOf sb st false r0, by
      rw [buildFLUXGraph_eq hm hbase ht5 hclip hvae, buildAfterChecks_ok hc hdisp]⟩

/-- Witness for C6: img2img without a manager aborts, FLUX Fill + inpaint
without a manager aborts, txt2img without a manager completes. -/
theorem flux_manager_precondition_witness :
    buildFLUXGraph sbId jsPow0 { baseState with generationMode := .img2img } false =
      .error (.assertionFailed "Need manager to do img2img") ∧
    buildFLUXGraph sbId jsPow0
        { baseState with model := some fillModel, generationMode := .inpaint } false =
      .error (.assertionFailed "Need manager to do FLUX Fill") ∧
    ∃ r, buildFLUXGraph sbId jsPow0 baseState false = .ok r := by
  refine ⟨?_, ?_, ?_⟩
  · exact (flux_manager_precondition sbId jsPow0 _ rfl rfl rfl rfl rfl).1
      (by simp [devModel]) rfl
  · exact (flux_manager_precondition sbId jsPow0 _ rfl rfl rfl rfl rfl).2.2.2.1 rfl
      (Or.inl rfl)
  · exact (flux_manager_precondition sbId jsPow0 _ rfl rfl rfl rfl rfl).2.2.2.2
      (by simp [devModel]) rfl

/-! ### Claim C7 -/

/-- Helper: a successful manager-present build carries the effective
guidance value (`guidanceOf`) both in the denoise node and in the final
metadata under the `guidance` key. -/
theorem build_guidance_spec {sb : SubBuilders} (tame : Tame sb)
    (jsPow : ℚ → ℚ → ℚ) (st : RootState) {m : ModelConfig}
    {t5 clipE vae : String} (hm : st.model = some m) (hbase : m.base = "flux")
    (ht5 : st.params.t5EncoderModel = some t5)
    (hclip : st.params.clipEmbedModel = some clipE)
    (hvae : st.params.fluxVAE = some vae)
    (hcompat : ¬(m.variant = some "inpaint" ∧
      (st.generationMode = .txt2img ∨ st.generationMode = .img2img)))
    (hcguid : hasKey st.canvasMetadata "guidance" = false) :
    ∃ r, buildFLUXGraph sb jsPow st true = .ok r ∧
      denoiseNode (guidanceOf m st) st.params.steps st.params.seed st.scaledSize ∈
        r.g.nodes ∧
      metaLookup r.g.metadata "guidance" = some (.num (guidanceOf m st)) := by
  obtain ⟨r0, hdisp⟩ := modeDispatch_ok_of_manager sb jsPow st m (g2Of sb st m t5 clipE vae)
  obtain ⟨hpres, hmeta, houtid⟩ := modeDispatch_spec tame hdisp
  refine ⟨finalOf sb st true r0, ?_, ?_, ?_⟩
  · rw [buildFLUXGraph_eq hm hbase ht5 hclip hvae, buildAfterChecks_ok hcompat hdisp]
  · have h1 := g2Of_denoise_mem tame st m t5 clipE vae
    have h2 := hpres.2.1 _ h1
    have h3 := wireAdapters_node_mem tame true h2 (by simp [denoiseNode, reservedIds])
    have hpp := postProcess_out_id tame st (wireAdapters sb true r0.1) houtid
    exact finalOf_node_mem tame st true r0 h3 (fun h => hpp h.symm)
  · rw [finalOf_metadata tame, hmeta, g2Of_metadata tame]
    simp only [metaLookup_upsertMany, metaLookupLast_eq_none_of_hasKey_false hcguid,
      modeMetaOf_no_guidance, metaLookup_upsertMany_nil, initialMetadata_guidance_last]

/-- C7: for the FLUX Fill model on a compatible mode (inpaint or outpaint)
the guidance parameter is overridden with the fixed constant 30 in both
the denoise node and the recorded metadata, regardless of the user-supplied
value; for a non-fill model the user-supplied guidance is used unchanged in
both places. -/
theorem flux_guidance_override (sb : SubBuilders) (tame : Tame sb)
    (jsPow : ℚ → ℚ → ℚ) (st : RootState) {m : ModelConfig}
    {t5 clipE vae : String} (hm : st.model = some m) (hbase : m.base = "flux")
    (ht5 : st.params.t5EncoderModel = some t5)
    (hclip : st.params.clipEmbedModel = some clipE)
    (hvae : st.params.fluxVAE = some vae)
    (hcguid : hasKey st.canvasMetadata "guidance" = false) :
    (m.variant = some "inpaint" →
      (st.generationMode = .inpaint ∨ st.generationMode = .outpaint) →
      ∃ r, buildFLUXGraph sb jsPow st true = .ok r ∧
        denoiseNode 30 st.params.steps st.params.seed st.scaledSize ∈ r.g.nodes ∧
        metaLookup r.g.metadata "guidance" = some (.num 30)) ∧
    (¬m.variant = some "inpaint" →
      ∃ r, buildFLUXGraph sb jsPow st true = .ok r ∧
        denoiseNode st.params.guidance st.params.steps st.params.seed st.scaledSize ∈
          r.g.nodes ∧
        metaLookup r.g.metadata "guidance" = some (.num st.params.guidance)) := by
  constructor
  · intro hv hmode
    have hcompat : ¬(m.variant = some "inpaint" ∧
        (st.generationMode = .txt2img ∨ st.generationMode = .img2img)) := fun hc => by
      rcases hmode with h | h <;> rw [h] at hc <;> rcases hc.2 with h2 | h2 <;> cases h2
    have hspec := build_guidance_spec tame jsPow st hm hbase ht5 hclip hvae hcompat hcguid
    have hg : guidanceOf m st = 30 := by simp [guidanceOf, hv]
    rwa [hg] at hspec
  · intro hv
    have hcompat : ¬(m.variant = some "inpaint" ∧
        (st.generationMode = .txt2img ∨ st.generationMode = .img2img)) :=
      fun hc => hv hc.1
    have hspec := build_guidance_spec tame jsPow st hm hbase ht5 hclip hvae hcompat hcguid
    have hg : guidanceOf m st = st.params.guidance := by simp [guidanceOf, hv]
    rwa [hg] at hspec

/-- Witness for C7: the fill model on inpaint yields guidance 30 in node
and metadata although the user supplied 4; the dev model keeps 4. -/
theorem flux_guidance_override_witness :
    (∃ r, buildFLUXGraph sbId jsPow0
        { baseState with model := some fillModel, generationMode := .inpaint } true = .ok r ∧
      denoiseNode 30 30 123 ⟨512, 512⟩ ∈ r.g.nodes ∧
      metaLookup r.g.metadata "guidance" = some (.num 30)) ∧
    (∃ r, buildFLUXGraph sbId jsPow0 baseState true = .ok r ∧
      denoiseNode 4 30 123 ⟨512, 512⟩ ∈ r.g.nodes ∧
      metaLookup r.g.metadata "guidance" = some (.num 4)) := by
  constructor
  · exact (flux_guidance_override sbId tame_sbId jsPow0
      { baseState with model := some fillModel, generationMode := .inpaint }
      rfl rfl rfl rfl rfl rfl).1 rfl (Or.inl rfl)
  · exact (flux_guidance_override sbId tame_sbId jsPow0 baseState
      rfl rfl rfl rfl rfl rfl).2 (by simp [devModel])

/-! ### Claim C3 -/

/-- C3: for each optional feature with a collector node (control nets,
IP adapters, FLUX reduxes): when the reported wired-item count is
positive the builder wires an edge from that collector's `collection`
output into the denoise node, and when the count is zero the collector
node is deleted, so it is absent from the final graph's node set.  The
IP-adapter and redux counts include the contributions reported by the
regions sub-builder. -/
theorem flux_collector_wiring (sb : SubBuilders) (tame : Tame sb)
    (jsPow : ℚ → ℚ → ℚ) (st : RootState) {m : ModelConfig}
    {t5 clipE vae : String} {ccn cip crd rip rrd : ℕ}
    (hm : st.model = some m) (hbase : m.base = "flux")
    (ht5 : st.params.t5EncoderModel = some t5)
    (hclip : st.params.clipEmbedModel = some clipE)
    (hvae : st.params.fluxVAE = some vae)
    (hcompat : ¬(m.variant = some "inpaint" ∧
      (st.generationMode = .txt2img ∨ st.generationMode = .img2img)))
    (hcn : ∀ g', (sb.addControlNets g').2 = ccn)
    (hip : ∀ g', (sb.addIPAdapters g').2 = cip)
    (hrd : ∀ g', (sb.addFLUXReduxes g').2 = crd)
    (hreg : ∀ g', (sb.addRegions g').2 = (rip, rrd)) :
    ∃ r, buildFLUXGraph sb jsPow st true = .ok r ∧
      (0 < ccn → cnEdge ∈ r.g.edges) ∧
      (ccn = 0 → NodeAbsent r.g "control_net_collector:0") ∧
      (0 < cip + rip → ipEdge ∈ r.g.edges) ∧
      (cip + rip = 0 → NodeAbsent r.g "ip_adapter_collector:0") ∧
      (0 < crd + rrd → rdEdge ∈ r.g.edges) ∧
      (crd + rrd = 0 → NodeAbsent r.g "ip_adapter_collector:1") := by
  obtain ⟨r0, hdisp⟩ := modeDispatch_ok_of_manager sb jsPow st m (g2Of sb st m t5 clipE vae)
  refine ⟨finalOf sb st true r0,
    by rw [buildFLUXGraph_eq hm hbase ht5 hclip hvae, buildAfterChecks_ok hcompat hdisp],
    ?_, ?_, ?_, ?_, ?_, ?_⟩
  · intro hpos
    exact finalOf_edge tame st true r0 (wireAdapters_cn_edge tame hcn hpos r0.1)
  · intro hzero
    exact finalOf_absent tame st true r0 (by simp [reservedIds])
      (wireAdapters_cn_absent tame hcn hzero r0.1)
  · intro hpos
    exact finalOf_edge tame st true r0 (wireAdapters_ip_edge hip hreg hpos r0.1)
  · intro hzero
    exact finalOf_absent tame st true r0 (by simp [reservedIds])
      (wireAdapters_ip_absent hip hreg hzero r0.1)
  · intro hpos
    exact finalOf_edge tame st true r0 (wireAdapters_rd_edge hrd hreg hpos r0.1)
  · intro hzero
    exact finalOf_absent tame st true r0 (by simp [reservedIds])
      (wireAdapters_rd_absent hrd hreg hzero r0.1)

/-- Witness for C3: with zero-count collaborators all three collector
nodes are absent from the final graph; with one-item collaborators all
three collector edges are present. -/
theorem flux_collector_wiring_witness :
    (∃ r, buildFLUXGraph sbId jsPow0 baseState true = .ok r ∧
      NodeAbsent r.g "control_net_collector:0" ∧
      NodeAbsent r.g "ip_adapter_collector:0" ∧
      NodeAbsent r.g "ip_adapter_collector:1") ∧
    (∃ r, buildFLUXGraph sbOne jsPow0 baseState true = .ok r ∧
      cnEdge ∈ r.g.edges ∧ ipEdge ∈ r.g.edges ∧ rdEdge ∈ r.g.edges) := by
  constructor
  · obtain ⟨r, hok, _, h2, _, h4, _, h6⟩ :=
      flux_collector_wiring sbId tame_sbId jsPow0 baseState rfl rfl rfl rfl rfl
        (by simp [devModel]) (fun _ => rfl) (fun _ => rfl) (fun _ => rfl) (fun _ => rfl)
    exact ⟨r, hok, h2 rfl, h4 rfl, h6 rfl⟩
  · obtain ⟨r, hok, h1, _, h3, _, h5, _⟩ :=
      flux_collector_wiring sbOne tame_sbOne jsPow0 baseState rfl rfl rfl rfl rfl
        (by simp [devModel]) (fun _ => rfl) (fun _ => rfl) (fun _ => rfl) (fun _ => rfl)
    exact ⟨r, hok, h1 (by decide), h3 (by decide), h5 (by decide)⟩

/-! ### Claim C4 -/

/-- C4: after a successful build the accumulated metadata is exactly the
union of the keys contributed by the three `upsertMetadata` calls (initial
parameter snapshot, mode-specific contribution, final canvas-state
snapshot): a key is present iff one of the three contributed it, and on
collisions the latest contribution wins (canvas snapshot over mode
contribution over initial snapshot); no previously contributed key is ever
removed. -/
theorem flux_metadata_accumulation (sb : SubBuilders) (tame : Tame sb)
    (jsPow : ℚ → ℚ → ℚ) (st : RootState) {m : ModelConfig}
    {t5 clipE vae : String} (hm : st.model = some m) (hbase : m.base = "flux")
    (ht5 : st.params.t5EncoderModel = some t5)
    (hclip : st.params.clipEmbedModel = some clipE)
    (hvae : st.params.fluxVAE = some vae)
    (hcompat : ¬(m.variant = some "inpaint" ∧
      (st.generationMode = .txt2img ∨ st.generationMode = .img2img))) :
    ∃ r, buildFLUXGraph sb jsPow st true = .ok r ∧
      (∀ k, hasKey r.g.metadata k =
        (hasKey (initialMetadata (guidanceOf m st) st m t5 clipE vae) k ||
         hasKey (modeMetaOf st m) k || hasKey st.canvasMetadata k)) ∧
      (∀ k, metaLookup r.g.metadata k =
        match metaLookupLast st.canvasMetadata k with
        | some v => some v
        | none =>
          match metaLookupLast (modeMetaOf st m) k with
          | some v => some v
          | none =>
            metaLookupLast (initialMetadata (guidanceOf m st) st m t5 clipE vae) k) := by
  obtain ⟨r0, hdisp⟩ := modeDispatch_ok_of_manager sb jsPow st m (g2Of sb st m t5 clipE vae)
  obtain ⟨hpres, hmeta, houtid⟩ := modeDispatch_spec tame hdisp
  have hfm : (finalOf sb st true r0).g.metadata =
      upsertMany (upsertMany (upsertMany []
        (initialMetadata (guidanceOf m st) st m t5 clipE vae))
        (modeMetaOf st m)) st.canvasMetadata := by
    rw [finalOf_metadata tame, hmeta, g2Of_metadata tame]
  refine ⟨finalOf sb st true r0,
    by rw [buildFLUXGraph_eq hm hbase ht5 hclip hvae, buildAfterChecks_ok hcompat hdisp],
    ?_, ?_⟩
  · intro k
    rw [hfm, hasKey_upsertMany, hasKey_upsertMany, hasKey_upsertMany]
    simp [hasKey, Bool.or_assoc]
  · intro k
    rw [hfm, metaLookup_upsertMany, metaLookup_upsertMany, metaLookup_upsertMany_nil]

/-- Witness for C4: at the baseline state the final metadata holds the
mode contribution under `generation_mode` and the initial snapshot's
`guidance` key. -/
theorem flux_metadata_accumulation_witness :
    ∃ r, buildFLUXGraph sbId jsPow0 baseState true = .ok r ∧
      metaLookup r.g.metadata "generation_mode" = some (.str "flux_txt2img") ∧
      hasKey r.g.metadata "guidance" = true := by
  obtain ⟨r, hok, hkeys, hlook⟩ := flux_metadata_accumulation sbId tame_sbId jsPow0
    baseState rfl rfl rfl rfl rfl (by simp [devModel])
  refine ⟨r, hok, ?_, ?_⟩
  · have h := hlook "generation_mode"
    simpa [baseState, devModel, modeMetaOf, metaLookupLast] using h
  · have h := hkeys "guidance"
    simpa [baseState, devModel, initialMetadata, hasKey] using h

/-! ### Claim C10 -/

/-- C10: the txt2img, img2img, inpaint and outpaint branches each
contribute a `generation_mode` metadata key (`flux_txt2img`,
`flux_img2img`, `flux_inpaint`, `flux_outpaint` respectively), but the
FLUX Fill branch contributes none — so when no other merge supplies the
key, a fill-mode build's metadata lacks it while every other branch's
build carries its mode string. -/
theorem flux_generation_mode_key (sb : SubBuilders) (tame : Tame sb)
    (jsPow : ℚ → ℚ → ℚ) (st : RootState) {m : ModelConfig}
    {t5 clipE vae : String} (hm : st.model = some m) (hbase : m.base = "flux")
    (ht5 : st.params.t5EncoderModel = some t5)
    (hclip : st.params.clipEmbedModel = some clipE)
    (hvae : st.params.fluxVAE = some vae)
    (hcm : hasKey st.canvasMetadata "generation_mode" = false) :
    (m.variant = some "inpaint" →
      (st.generationMode = .inpaint ∨ st.generationMode = .outpaint) →
      ∃ r, buildFLUXGraph sb jsPow st true = .ok r ∧
        hasKey r.g.metadata "generation_mode" = false) ∧
    (¬m.variant = some "inpaint" →
      ∃ r, buildFLUXGraph sb jsPow st true = .ok r ∧
        metaLookup r.g.metadata "generation_mode" =
          some (.str (modeStr st.generationMode))) := by
  constructor
  · intro hv hmode
    have hcompat : ¬(m.variant = some "inpaint" ∧
        (st.generationMode = .txt2img ∨ st.generationMode = .img2img)) := fun hc => by
      rcases hmode with h | h <;> rw [h] at hc <;> rcases hc.2 with h2 | h2 <;> cases h2
    obtain ⟨r0, hdisp⟩ := modeDispatch_ok_of_manager sb jsPow st m (g2Of sb st m t5 clipE vae)
    obtain ⟨hpres, hmeta, houtid⟩ := modeDispatch_spec tame hdisp
    refine ⟨finalOf sb st true r0,
      by rw [buildFLUXGraph_eq hm hbase ht5 hclip hvae, buildAfterChecks_ok hcompat hdisp],
      ?_⟩
    rw [finalOf_metadata tame, hmeta, g2Of_metadata tame,
      hasKey_upsertMany, hasKey_upsertMany, hasKey_upsertMany,
      modeMetaOf_fill st hv, initialMetadata_no_gm, hcm]
    simp [hasKey]
  · intro hv
    have hcompat : ¬(m.variant = some "inpaint" ∧
        (st.generationMode = .txt2img ∨ st.generationMode = .img2img)) :=
      fun hc => hv hc.1
    obtain ⟨r0, hdisp⟩ := modeDispatch_ok_of_manager sb jsPow st m (g2Of sb st m t5 clipE vae)
    obtain ⟨hpres, hmeta, houtid⟩ := modeDispatch_spec tame hdisp
    refine ⟨finalOf sb st true r0,
      by rw [buildFLUXGraph_eq hm hbase ht5 hclip hvae, buildAfterChecks_ok hcompat hdisp],
      ?_⟩
    rw [finalOf_metadata tame, hmeta, g2Of_metadata tame]
    simp only [metaLookup_upsertMany, metaLookupLast_eq_none_of_hasKey_false hcm,
      modeMetaOf_nonfill st hv]
    simp [metaLookupLast]

/-- Witness for C10: a FLUX Fill inpaint build carries no
`generation_mode` key; the baseline txt2img build carries
`flux_txt2img`. -/
theorem flux_generation_mode_key_witness :
    (∃ r, buildFLUXGraph sbId jsPow0
        { baseState with model := some fillModel, generationMode := .inpaint } true = .ok r ∧
      hasKey r.g.metadata "generation_mode" = false) ∧
    (∃ r, buildFLUXGraph sbId jsPow0 baseState true = .ok r ∧
      metaLookup r.g.metadata "generation_mode" = some (.str "flux_txt2img")) := by
  constructor
  · exact (flux_generation_mode_key sbId tame_sbId jsPow0
      { baseState with model := some fillModel, generationMode := .inpaint }
      rfl rfl rfl rfl rfl rfl).1 rfl (Or.inl rfl)
  · exact (flux_generation_mode_key sbId tame_sbId jsPow0 baseState
      rfl rfl rfl rfl rfl rfl).2 (by simp [devModel])

/-! ### Claim C2 -/

theorem postProcess_sbProbe (st : RootState) (g : Graph) (out : Node) :
    postProcess sbProbe st g out = (g, out) := by
  unfold postProcess
  by_cases h1 : st.system.shouldUseNSFWChecker <;>
    by_cases h2 : st.system.shouldUseWatermarker <;>
      simp [h1, h2, sbProbe, sbId]

/-- C2: the `denoising_start` value handed to the strength-consuming mode
sub-builders (img2img, inpaint, outpaint) equals
`1 - img2imgStrength ** 0.2` when optimized denoising is enabled and
`1 - img2imgStrength` when it is disabled, for every strength and every
interpretation `jsPow` of the JavaScript `**` operator: building with the
recording bundle `sbProbe` leaves a probe node holding exactly that
value. -/
theorem flux_denoising_start_formula (jsPow : ℚ → ℚ → ℚ) (st : RootState)
    {m : ModelConfig} {t5 clipE vae : String}
    (hm : st.model = some m) (hbase : m.base = "flux")
    (hv : ¬m.variant = some "inpaint")
    (ht5 : st.params.t5EncoderModel = some t5)
    (hclip : st.params.clipEmbedModel = some clipE)
    (hvae : st.params.fluxVAE = some vae)
    (hmode : st.generationMode = .img2img ∨ st.generationMode = .inpaint ∨
      st.generationMode = .outpaint) :
    ∃ r, buildFLUXGraph sbProbe jsPow st true = .ok r ∧
      probeNode (if st.params.optimizedDenoisingEnabled
        then 1 - jsPow st.params.img2imgStrength (0.2 : ℚ)
        else 1 - st.params.img2imgStrength) ∈ r.g.nodes := by
  have hcompat : ¬(m.variant = some "inpaint" ∧
      (st.generationMode = .txt2img ∨ st.generationMode = .img2img)) :=
    fun hc => hv hc.1
  have key : ∃ r0,
      modeDispatch sbProbe jsPow st m true (g2Of sbProbe st m t5 clipE vae) = .ok r0 ∧
      probeNode (fluxDenoisingStart jsPow st.params) ∈ r0.1.nodes ∧
      r0.2 = l2iNode := by
    rcases hmode with h | h | h <;>
      [skip; skip; skip] <;>
      (unfold modeDispatch; rw [if_neg hv, h]; exact ⟨_, rfl, by simp [sbProbe], rfl⟩)
  obtain ⟨r0, hdisp, hprobe, hout⟩ := key
  refine ⟨finalOf sbProbe st true r0,
    by rw [buildFLUXGraph_eq hm hbase ht5 hclip hvae, buildAfterChecks_ok hcompat hdisp],
    ?_⟩
  have h3 := wireAdapters_node_mem tame_sbProbe true hprobe (by simp [probeNode, reservedIds])
  have hne : (probeNode (fluxDenoisingStart jsPow st.params)).id ≠
      (postProcess sbProbe st (wireAdapters sbProbe true r0.1) r0.2).2.id := by
    rw [postProcess_sbProbe, hout]
    simp [probeNode, l2iNode]
  have hmem := finalOf_node_mem tame_sbProbe st true r0 h3 hne
  simpa only [fluxDenoisingStart] using hmem

/-- Witness for C2: at strength 1/2 the linear rule records
`1 - 1/2` and the power rule records `1 - jsPow0 (1/2) 0.2`. -/
theorem flux_denoising_start_formula_witness :
    (∃ r, buildFLUXGraph sbProbe jsPow0
        { baseState with generationMode := .img2img } true = .ok r ∧
      probeNode (1 - (1/2 : ℚ)) ∈ r.g.nodes) ∧
    (∃ r, buildFLUXGraph sbProbe jsPow0
        { baseState with
            generationMode := .img2img,
            params := { fullParams with optimizedDenoisingEnabled := true } }
        true = .ok r ∧
      probeNode (1 - jsPow0 (1/2) (0.2 : ℚ)) ∈ r.g.nodes) := by
  constructor
  · have h := flux_denoising_start_formula jsPow0
      { baseState with generationMode := .img2img } rfl rfl (by simp [devModel])
      rfl rfl rfl (Or.inl rfl)
    simpa [baseState, fullParams] using h
  · have h := flux_denoising_start_formula jsPow0
      { baseState with
          generationMode := .img2img,
          params := { fullParams with optimizedDenoisingEnabled := true } }
      rfl rfl (by simp [devModel]) rfl rfl rfl (Or.inl rfl)
    simpa [baseState, fullParams] using h

/-! ### Lemmas about the marking bundle -/

theorem postProcess_sbMark_out (st : RootState) (g : Graph) (out : Node) :
    (postProcess sbMark st g out).2 =
      if st.system.shouldUseWatermarker then watermarkNode
      else if st.system.shouldUseNSFWChecker then nsfwNode else out := by
  unfold postProcess
  by_cases h1 : st.system.shouldUseNSFWChecker <;>
    by_cases h2 : st.system.shouldUseWatermarker <;>
      simp [h1, h2, sbMark]

theorem postProcess_sbMark_off {st : RootState}
    (hb1 : st.system.shouldUseNSFWChecker = false)
    (hb2 : st.system.shouldUseWatermarker = false) (g : Graph) (out : Node) :
    postProcess sbMark st g out = (g, out) := by
  unfold postProcess
  simp [hb1, hb2]

theorem upsertMetadata_nil (g : Graph) : g.upsertMetadata [] = g := rfl

theorem modeDispatch_sbMark_eq (jsPow : ℚ → ℚ → ℚ) (st : RootState)
    (m : ModelConfig) (g : Graph) :
    modeDispatch sbMark jsPow st m true g =
      .ok (((g.addNode (markNode (modeMarkOf st m))).addNode
        (modeOutNodeOf st m)).upsertMetadata (modeMetaOf st m),
        modeOutNodeOf st m) := by
  unfold modeDispatch
  by_cases hv : m.variant = some "inpaint"
  · rw [if_pos hv, if_pos rfl]
    simp [sbMark, modeMarkOf, modeOutNodeOf, modeMetaOf, hv, upsertMetadata_nil]
  · rw [if_neg hv]
    cases hmode : st.generationMode <;>
      simp [sbMark, modeMarkOf, modeOutNodeOf, modeMetaOf, hv, hmode]

theorem wireAdapters_sbMark_eq (g : Graph) :
    wireAdapters sbMark true g =
      (((((g.addNode controlNetCollectorNode).deleteNode
        "control_net_collector:0").addNode ipAdapterCollectNode).addNode
        fluxReduxCollectNode).deleteNode "ip_adapter_collector:0").deleteNode
        "ip_adapter_collector:1" := by
  unfold wireAdapters
  simp [sbMark]

theorem baseGraph_absent_of (m : ModelConfig) (t5 clipE vae : String)
    (gu : ℚ) (st : RootState) {i : String}
    (h1 : i ≠ "flux_model_loader:0") (h2 : i ≠ "flux_text_encoder:0")
    (h3 : i ≠ "pos_cond_collect:0") (h4 : i ≠ "flux_denoise:0")
    (h5 : i ≠ "flux_vae_decode:0") :
    NodeAbsent (baseGraph m t5 clipE vae gu st) i := by
  intro n hn
  rw [baseGraph_nodes] at hn
  simp only [List.mem_cons, List.not_mem_nil, or_false] at hn
  rcases hn with rfl | rfl | rfl | rfl | rfl <;>
    simp [modelLoaderNode, posCondNode, posCondCollectNode, denoiseNode, l2iNode] <;>
    first
    | exact fun e => h1 e.symm
    | exact fun e => h2 e.symm
    | exact fun e => h3 e.symm
    | exact fun e => h4 e.symm
    | exact fun e => h5 e.symm

theorem mark_out_id_facts (st : RootState) (m : ModelConfig) :
    modeMarkOf st m ∉ reservedIds ∧
    modeMarkOf st m ≠ (modeOutNodeOf st m).id ∧
    (modeOutNodeOf st m).id ∉ reservedIds ∧
    (modeOutNodeOf st m).id ≠ "nsfw_checker:0" ∧
    (modeOutNodeOf st m).id ≠ "watermarker:0" := by
  unfold modeMarkOf modeOutNodeOf
  by_cases hv : m.variant = some "inpaint"
  · simp [hv, outFillNode, reservedIds]
  · cases st.generationMode <;>
      simp [hv, reservedIds, outTxt2imgNode, outImg2imgNode, outInpaintNode,
        outOutpaintNode]

/-! ### Claim C9 -/

theorem modeOutNodeOf_withSystem (st : RootState) (b1 b2 : Bool)
    (m : ModelConfig) :
    modeOutNodeOf (withSystem st b1 b2) m = modeOutNodeOf st m := rfl

/-- C9: toggling the safety-filter and watermark flags changes which node
is the final (metadata-receiving) node — the safety filter applies first,
then the watermark, each rewriting the current output — but never the mode
sub-builder's own output node, which stays in the graph untouched; with
both toggles off the final output node is exactly the mode-specific output
node. -/
theorem flux_post_processing_output (jsPow : ℚ → ℚ → ℚ) (st : RootState)
    {m : ModelConfig} {t5 clipE vae : String}
    (hm : st.model = some m) (hbase : m.base = "flux")
    (ht5 : st.params.t5EncoderModel = some t5)
    (hclip : st.params.clipEmbedModel = some clipE)
    (hvae : st.params.fluxVAE = some vae)
    (hcompat : ¬(m.variant = some "inpaint" ∧
      (st.generationMode = .txt2img ∨ st.generationMode = .img2img))) :
    ∀ b1 b2 : Bool,
      ∃ r, buildFLUXGraph sbMark jsPow (withSystem st b1 b2) true = .ok r ∧
        r.g.metadataReceivingNodeId = some (if b2 then watermarkNode.id
          else if b1 then nsfwNode.id else (modeOutNodeOf st m).id) ∧
        ((b1 || b2) = true → modeOutNodeOf st m ∈ r.g.nodes) := by
  intro b1 b2
  have hm' : (withSystem st b1 b2).model = some m := hm
  have ht5' : (withSystem st b1 b2).params.t5EncoderModel = some t5 := ht5
  have hclip' : (withSystem st b1 b2).params.clipEmbedModel = some clipE := hclip
  have hvae' : (withSystem st b1 b2).params.fluxVAE = some vae := hvae
  have hcompat' : ¬(m.variant = some "inpaint" ∧
      ((withSystem st b1 b2).generationMode = .txt2img ∨
       (withSystem st b1 b2).generationMode = .img2img)) := hcompat
  obtain ⟨r0, hdisp, hr1, hr2⟩ : ∃ r0,
      modeDispatch sbMark jsPow (withSystem st b1 b2) m true
        (g2Of sbMark (withSystem st b1 b2) m t5 clipE vae) = .ok r0 ∧
      r0.1 = (((g2Of sbMark (withSystem st b1 b2) m t5 clipE vae).addNode
        (markNode (modeMarkOf (withSystem st b1 b2) m))).addNode
        (modeOutNodeOf (withSystem st b1 b2) m)).upsertMetadata
        (modeMetaOf (withSystem st b1 b2) m) ∧
      r0.2 = modeOutNodeOf (withSystem st b1 b2) m :=
    ⟨_, modeDispatch_sbMark_eq jsPow (withSystem st b1 b2) m _, rfl, rfl⟩
  refine ⟨finalOf sbMark (withSystem st b1 b2) true r0,
    by rw [buildFLUXGraph_eq hm' hbase ht5' hclip' hvae',
      buildAfterChecks_ok hcompat' hdisp], ?_, ?_⟩
  · rw [finalOf_receiver, postProcess_sbMark_out, hr2, modeOutNodeOf_withSystem]
    have hsys : (withSystem st b1 b2).system = ⟨b1, b2⟩ := rfl
    rw [hsys]
    cases b1 <;> cases b2 <;> simp
  · intro hb
    have hmem0 : modeOutNodeOf (withSystem st b1 b2) m ∈ r0.1.nodes := by
      rw [hr1]
      simp only [upsertMetadata_nodes, addNode_nodes]
      simp
    have h3 := wireAdapters_node_mem tame_sbMark true hmem0
      (mark_out_id_facts (withSystem st b1 b2) m).2.2.1
    have hne : (modeOutNodeOf (withSystem st b1 b2) m).id ≠
        (postProcess sbMark (withSystem st b1 b2)
          (wireAdapters sbMark true r0.1) r0.2).2.id := by
      rw [postProcess_sbMark_out]
      have hsys : (withSystem st b1 b2).system = ⟨b1, b2⟩ := rfl
      rw [hsys]
      cases hb1 : b1 <;> cases hb2 : b2
      · rw [hb1, hb2] at hb
        cases hb
      · simpa using (mark_out_id_facts (withSystem st b1 b2) m).2.2.2.2
      · simpa using (mark_out_id_facts (withSystem st b1 b2) m).2.2.2.1
      · simpa using (mark_out_id_facts (withSystem st b1 b2) m).2.2.2.2
    have hmem := finalOf_node_mem tame_sbMark (withSystem st b1 b2) true r0 h3 hne
    exact hmem

/-- Witness for C9: at the baseline state with the safety filter enabled
and the watermark disabled, the receiver is the safety-filter node and the
mode output node is still present. -/
theorem flux_post_processing_output_witness :
    ∃ r, buildFLUXGraph sbMark jsPow0 (withSystem baseState true false) true = .ok r ∧
      r.g.metadataReceivingNodeId = some "nsfw_checker:0" ∧
      outTxt2imgNode ∈ r.g.nodes := by
  obtain ⟨r, hok, hrec, hmem⟩ := flux_post_processing_output jsPow0 baseState
    rfl rfl rfl rfl rfl (by simp [devModel]) true false
  refine ⟨r, hok, ?_, ?_⟩
  · simpa [nsfwNode] using hrec
  · simpa [modeOutNodeOf, devModel, baseState] using hmem rfl

/-! ### Claim C8 (corrected) -/

/-- C8 as stated is false: with the safety-filter toggle enabled, the
metadata-receiving node of the completed graph is the safety-filter node,
not the output node returned by the (unique) mode sub-builder that ran.
Concretely: a txt2img build with `shouldUseNSFWChecker` on runs the
text-to-image sub-builder (its marker is present, count of markers is one)
yet designates the safety-filter node `nsfw_checker:0`, not `out_txt2img`,
as the metadata receiver. -/
theorem flux_mode_output_receiver_counterexample :
    (buildFLUXGraph sbMark jsPow0
        { baseState with system := ⟨true, false⟩ } false).toOption.map
      (fun r => (decide (markNode "ran_txt2img" ∈ r.g.nodes),
        (r.g.nodes.filter (fun n => n.type == "marker")).length,
        r.g.metadataReceivingNodeId)) =
      some (true, 1, some "nsfw_checker:0") ∧
    some "nsfw_checker:0" ≠ some "out_txt2img" := by
  constructor
  · decide
  · decide

/-- C8 (amended): for every valid mode/model combination exactly one of
the five mode-specific sub-builders runs — the dispatched branch's marker
is present and every other branch's marker id is absent — and, provided
the safety-filter and watermark toggles are both off, the output node it
returns becomes the metadata-receiving node of the completed graph. -/
theorem flux_mode_dispatch_unique (jsPow : ℚ → ℚ → ℚ) (st : RootState)
    {m : ModelConfig} {t5 clipE vae : String}
    (hm : st.model = some m) (hbase : m.base = "flux")
    (ht5 : st.params.t5EncoderModel = some t5)
    (hclip : st.params.clipEmbedModel = some clipE)
    (hvae : st.params.fluxVAE = some vae)
    (hcompat : ¬(m.variant = some "inpaint" ∧
      (st.generationMode = .txt2img ∨ st.generationMode = .img2img)))
    (hb1 : st.system.shouldUseNSFWChecker = false)
    (hb2 : st.system.shouldUseWatermarker = false) :
    ∃ r, buildFLUXGraph sbMark jsPow st true = .ok r ∧
      markNode (modeMarkOf st m) ∈ r.g.nodes ∧
      (∀ s, s ∈ ["ran_fill", "ran_txt2img", "ran_img2img", "ran_inpaint",
        "ran_outpaint"] → s ≠ modeMarkOf st m → NodeAbsent r.g s) ∧
      r.g.metadataReceivingNodeId = some (modeOutNodeOf st m).id := by
  obtain ⟨r0, hdisp, hr1, hr2⟩ : ∃ r0,
      modeDispatch sbMark jsPow st m true (g2Of sbMark st m t5 clipE vae) = .ok r0 ∧
      r0.1 = (((g2Of sbMark st m t5 clipE vae).addNode
        (markNode (modeMarkOf st m))).addNode
        (modeOutNodeOf st m)).upsertMetadata (modeMetaOf st m) ∧
      r0.2 = modeOutNodeOf st m :=
    ⟨_, modeDispatch_sbMark_eq jsPow st m _, rfl, rfl⟩
  refine ⟨finalOf sbMark st true r0,
    by rw [buildFLUXGraph_eq hm hbase ht5 hclip hvae,
      buildAfterChecks_ok hcompat hdisp], ?_, ?_, ?_⟩
  · have hmem0 : markNode (modeMarkOf st m) ∈ r0.1.nodes := by
      rw [hr1]
      simp only [upsertMetadata_nodes, addNode_nodes]
      simp
    have h3 := wireAdapters_node_mem tame_sbMark true hmem0
      (by simpa [markNode] using (mark_out_id_facts st m).1)
    apply finalOf_node_mem tame_sbMark st true r0 h3
    rw [postProcess_sbMark_off hb1 hb2, hr2]
    simpa [markNode] using (mark_out_id_facts st m).2.1
  · intro s hs hne
    simp only [List.mem_cons, List.not_mem_nil, or_false] at hs
    have houtne : (modeOutNodeOf st m).id ≠ s := by
      unfold modeOutNodeOf
      by_cases hv : m.variant = some "inpaint"
      · rcases hs with rfl | rfl | rfl | rfl | rfl <;> simp [hv, outFillNode]
      · cases st.generationMode <;> rcases hs with rfl | rfl | rfl | rfl | rfl <;>
          simp [hv, outTxt2imgNode, outImg2imgNode, outInpaintNode, outOutpaintNode]
    have habs1 : NodeAbsent r0.1 s := by
      rw [hr1]
      apply NodeAbsent.upsertMetadata
      apply NodeAbsent.addNode _ houtne
      apply NodeAbsent.addNode _ (by simpa [markNode] using fun e => hne e.symm)
      unfold g2Of
      apply NodeAbsent.upsertMetadata
      exact (baseGraph_absent_of m t5 clipE vae (guidanceOf m st) st
        (by rcases hs with rfl | rfl | rfl | rfl | rfl <;> simp)
        (by rcases hs with rfl | rfl | rfl | rfl | rfl <;> simp)
        (by rcases hs with rfl | rfl | rfl | rfl | rfl <;> simp)
        (by rcases hs with rfl | rfl | rfl | rfl | rfl <;> simp)
        (by rcases hs with rfl | rfl | rfl | rfl | rfl <;> simp))
    have habs2 : NodeAbsent (wireAdapters sbMark true r0.1) s := by
      rw [wireAdapters_sbMark_eq]
      apply NodeAbsent.deleteNode
      apply NodeAbsent.deleteNode
      apply NodeAbsent.addNode _ (by
        rcases hs with rfl | rfl | rfl | rfl | rfl <;> simp [fluxReduxCollectNode])
      apply NodeAbsent.addNode _ (by
        rcases hs with rfl | rfl | rfl | rfl | rfl <;> simp [ipAdapterCollectNode])
      apply NodeAbsent.deleteNode
      exact habs1.addNode (by
        rcases hs with rfl | rfl | rfl | rfl | rfl <;> simp [controlNetCollectorNode])
    show NodeAbsent (finalOf sbMark st true r0).g s
    simp only [finalOf]
    rw [postProcess_sbMark_off hb1 hb2]
    exact ((habs2.upsertMetadata _).updateNode _ _).setReceiving _
  · rw [finalOf_receiver, postProcess_sbMark_off hb1 hb2, hr2]

/-- Witness for C8 (amended): the baseline txt2img build leaves only the
txt2img marker and designates `out_txt2img` as the receiver. -/
theorem flux_mode_dispatch_unique_witness :
    ∃ r, buildFLUXGraph sbMark jsPow0 baseState true = .ok r ∧
      markNode "ran_txt2img" ∈ r.g.nodes ∧
      NodeAbsent r.g "ran_img2img" ∧
      r.g.metadataReceivingNodeId = some "out_txt2img" := by
  obtain ⟨r, hok, hmark, habs, hrec⟩ := flux_mode_dispatch_unique jsPow0 baseState
    rfl rfl rfl rfl rfl (by simp [devModel]) rfl rfl
  refine ⟨r, hok, ?_, ?_, ?_⟩
  · simpa [modeMarkOf, devModel, baseState] using hmark
  · exact habs _ (by simp) (by simp [modeMarkOf, devModel, baseState])
  · simpa [modeOutNodeOf, devModel, baseState, outTxt2imgNode] using hrec

end FluxGraph
